import Mathlib

/-!
# fsptool: volume listing and identity report

A shallow embedding of `src/fsptool/fsptool.c` (WinFsp): the functions behind
the commands `lsvol` and `id`, translated one for one under their C names.
Everything the file calls but does not define (the heap, the WinFsp driver
query, the Win32 token and device-name services, the status conversions) is
collected in the record `OS` and taken as a parameter, so every theorem holds
for every behaviour of those services.

Conventions:

* `WCHAR`, `DWORD`, `SIZE_T`, `UINT32` are natural numbers, `NTSTATUS` and
  the C `int` are integers; the arithmetic on them that can leave the
  machine range in the code below is the doubling of `VolumeListSize` in
  `FspToolGetVolumeList`, the 32-bit complement in `FspToolGetDriveLetter`
  and the `DWORD` to `int` conversion of the exit code, and all three are
  written out explicitly.
* a wide string is the list of the `WCHAR`s stored in memory; the C string
  that starts at its head is `cstr`, the part before the first NUL.
* console output is the sequence of `info`/`warn` calls, each with its
  format string and arguments (`Line`).  The rendering done by `wvsprintfA`
  inside `vprintlog` is not part of the embedding.
* the unbounded `for (;;)` loop of `FspToolGetVolumeList` takes a fuel
  argument; `none` means the fuel ran out.
-/

namespace Fsptool

/-! ## Machine types and constants -/

abbrev WCHAR := Nat
abbrev DWORD := Nat
abbrev SIZE_T := Nat
abbrev UINT32 := Nat
abbrev NTSTATUS := Int
abbrev HANDLE := Nat
abbrev PSID := Nat

/-- The `NT_SUCCESS` test of the Windows headers: `((NTSTATUS)(Status)) >= 0`. -/
def NT_SUCCESS (Status : NTSTATUS) : Bool := decide (0 ≤ Status)

def STATUS_SUCCESS : NTSTATUS := 0
/-- The value `0xC0000023` as a signed 32-bit integer. -/
def STATUS_BUFFER_TOO_SMALL : NTSTATUS := -1073741789
/-- The value `0xC000009A` as a signed 32-bit integer. -/
def STATUS_INSUFFICIENT_RESOURCES : NTSTATUS := -1073741670
/-- The value `0xC000000D` as a signed 32-bit integer. -/
def STATUS_INVALID_PARAMETER : NTSTATUS := -1073741811
def ERROR_INSUFFICIENT_BUFFER : DWORD := 122
def ERROR_INVALID_PARAMETER : DWORD := 87

/-- The C conversion of a `DWORD` to `int` (two's complement, 32 bits), as in
`ErrorCode = GetLastError()` and `return FspWin32FromNtStatus(Result)`. -/
def int_of_DWORD (d : DWORD) : Int :=
  if d % 4294967296 < 2147483648 then ((d % 4294967296 : Nat) : Int)
  else ((d % 4294967296 : Nat) : Int) - 4294967296

/-! ## Wide strings -/

/-- The C string stored at the head of a `WCHAR` array: everything before the
first NUL. -/
def cstr (s : List WCHAR) : List WCHAR := s.takeWhile (fun c => c != 0)

/-- The Win32 `lstrlenW`: the number of `WCHAR`s before the first NUL. -/
def lstrlenW (s : List WCHAR) : Nat := (cstr s).length

/-- Modelled from the spec: `invariant_wcscmp` is defined in `shared/minimal.h`,
which is not among the sources.  The spec calls it an exact, ordinal
comparison of two NUL-terminated wide strings; this is the usual loop, which
returns the difference of the first two `WCHAR`s that differ and 0 when both
strings end together. -/
def invariant_wcscmp : List WCHAR → List WCHAR → Int
  | [], [] => 0
  | [], t :: _ => 0 - (t : Int)
  | s :: _, [] => (s : Int) - 0
  | s :: ss, t :: ts =>
    if s ≠ t then (s : Int) - (t : Int)
    else if t = 0 then 0
    else invariant_wcscmp ss ts

/-! ## Console output -/

/-- One argument of a `printlog` call. -/
inductive Arg where
  /-- A wide string, printed with `%S`. -/
  | wstr (s : List WCHAR)
  /-- An ANSI string, printed with `%s`. -/
  | astr (s : String)
  /-- An unsigned integer, printed with `%u`. -/
  | uint (n : Nat)
  deriving DecidableEq, Repr

/-- One call of `printlog`: the handle (`false` for standard output, `true`
for standard error), the format string and the arguments.  `vprintlog`
writes it as one line. -/
structure Line where
  err : Bool
  format : String
  args : List Arg
  deriving DecidableEq, Repr

/-- The macro `info(format, ...)`: a line on standard output. -/
def info (format : String) (args : List Arg) : Line := ⟨false, format, args⟩

/-- The macro `warn(format, ...)`: a line on standard error. -/
def warn (format : String) (args : List Arg) : Line := ⟨true, format, args⟩

def PROGNAME : String := "fsptool"

/-- The function `usage`: it prints the usage text on standard error and
leaves the process with `ERROR_INVALID_PARAMETER` (`fatal` calls
`ExitProcess`).  The result is the exit code and the output. -/
def usage : Int × List Line :=
  (int_of_DWORD ERROR_INVALID_PARAMETER,
   [warn ("usage: %s COMMAND ARGS\n" ++
      "\n" ++
      "commands:\n" ++
      "    lsvol       list file system devices (volumes)\n" ++
      "    id          get current user/group SID\n" ++
      "    uidtosid    get SID from POSIX UID\n" ++
      "    sidtouid    get POSIX UID from SID\n" ++
      "    permtosd    get security descriptor from POSIX permissions\n" ++
      "    sdtoperm    get POSIX permissions from security descriptor\n")
      [Arg.astr PROGNAME]])

/-! ## The services the tool calls -/

/-- What a call of `FspFsctlGetVolumeList(DeviceName, VolumeListBuf,
&VolumeListSize)` leaves behind: the status it returns, the value it leaves
in the caller's `VolumeListSize` (an in/out parameter), and the contents of
the buffer. -/
structure VolumeListResult where
  Result : NTSTATUS
  VolumeListSize : SIZE_T
  VolumeListBuf : List WCHAR

/-- What a call of `GetTokenInformation` leaves behind: the `BOOL` it
returns, the value of `GetLastError()` after a `FALSE` return, the value
stored in `*ReturnLength`, and the identifier embedded in the structure
written to the buffer (`User.Sid`, `Owner` or `PrimaryGroup`). -/
structure TokenInformationResult where
  ok : Bool
  LastError : DWORD
  ReturnLength : DWORD
  Sid : PSID

inductive TOKEN_INFORMATION_CLASS where
  | TokenUser
  | TokenOwner
  | TokenPrimaryGroup
  deriving DecidableEq, Repr

/-- The environment of one run of the tool. -/
structure OS where
  /-- Whether `MemAlloc(Size)` returns a non-null pointer. -/
  MemAlloc : SIZE_T → Bool
  /-- The driver query, by device name and by the capacity passed in
  `*PVolumeListSize`. -/
  FspFsctlGetVolumeList : String → SIZE_T → VolumeListResult
  /-- The bitmap returned by `GetLogicalDrives()`. -/
  GetLogicalDrives : DWORD
  /-- The buffer filled by `QueryDosDeviceW(L"X:", VolumeNameBuf, MAX_PATH)`
  for the drive letter `X`, or `none` when it returns 0. -/
  QueryDosDeviceW : WCHAR → Option (List WCHAR)
  /-- The token handle, or the value of `GetLastError()` when
  `OpenProcessToken` fails. -/
  OpenProcessToken : Except DWORD HANDLE
  /-- The token query; the last argument is `none` for the probe
  `(0, 0, &Size)` and `some Size` for the call `(Info, Size, &Size)`. -/
  GetTokenInformation : HANDLE → TOKEN_INFORMATION_CLASS → Option DWORD →
    TokenInformationResult
  /-- The buffers `(Name, Domn)` filled by `LookupAccountSidW`, or `none`
  when it fails. -/
  LookupAccountSidW : PSID → Option (List WCHAR × List WCHAR)
  /-- The string allocated by `ConvertSidToStringSidW`, or the value of
  `GetLastError()` when it fails. -/
  ConvertSidToStringSidW : PSID → Except DWORD (List WCHAR)
  /-- The status and the identifier stored by `FspPosixMapSidToUid`. -/
  FspPosixMapSidToUid : PSID → NTSTATUS × UINT32
  FspNtStatusFromWin32 : DWORD → NTSTATUS
  FspWin32FromNtStatus : NTSTATUS → DWORD
  /-- The width of `SIZE_T` in the build, 32 or 64. -/
  SIZE_T_BITS : Nat

/-! ## FspToolGetVolumeList -/

/-- The outcome of `FspToolGetVolumeList`: the returned status, the buffer
and size handed to the caller, and (for the proofs only) the capacities of
the successive calls of `FspFsctlGetVolumeList`, in order. -/
structure VolumeList where
  Result : NTSTATUS
  VolumeListBuf : List WCHAR
  VolumeListSize : SIZE_T
  Calls : List SIZE_T
  deriving DecidableEq, Repr

/-- The loop `for (VolumeListSize = 1024;; VolumeListSize *= 2)` of
`FspToolGetVolumeList`, entered with the current `VolumeListSize`; `Calls`
holds the capacities already tried.  The callee receives `&VolumeListSize`,
so the value doubled is the one the call left there, and the product is
taken in `SIZE_T`. -/
def FspToolGetVolumeList_loop (os : OS) (DeviceName : String) :
    Nat → SIZE_T → List SIZE_T → Option VolumeList
  | 0, _, _ => none
  | fuel + 1, VolumeListSize, Calls =>
    if os.MemAlloc VolumeListSize = false then
      some ⟨STATUS_INSUFFICIENT_RESOURCES, [], 0, Calls⟩
    else
      let r := os.FspFsctlGetVolumeList DeviceName VolumeListSize
      if NT_SUCCESS r.Result then
        some ⟨r.Result, r.VolumeListBuf, r.VolumeListSize, Calls ++ [VolumeListSize]⟩
      else if STATUS_BUFFER_TOO_SMALL ≠ r.Result then
        some ⟨r.Result, [], 0, Calls ++ [VolumeListSize]⟩
      else
        FspToolGetVolumeList_loop os DeviceName fuel
          (r.VolumeListSize * 2 % 2 ^ os.SIZE_T_BITS) (Calls ++ [VolumeListSize])

/-- The function `FspToolGetVolumeList`. -/
def FspToolGetVolumeList (os : OS) (fuel : Nat) (DeviceName : String) :
    Option VolumeList :=
  FspToolGetVolumeList_loop os DeviceName fuel 1024 []

/-! ## FspToolGetDriveLetter -/

/-- The loop `for (Drive = 'Z'; 'A' <= Drive; Drive--)` of
`FspToolGetDriveLetter` with `n` letters left to try, the next one being
`'A' + n - 1`.  The result is the returned letter and the updated
`*PLogicalDrives`. -/
def FspToolGetDriveLetter_loop (QueryDosDeviceW : WCHAR → Option (List WCHAR))
    (LogicalDrives : DWORD) (VolumeName : List WCHAR) : Nat → WCHAR × DWORD
  | 0 => (0, LogicalDrives)
  | n + 1 =>
    let Drive : WCHAR := 65 + n
    if LogicalDrives &&& (1 <<< (Drive - 65)) ≠ 0 then
      match QueryDosDeviceW Drive with
      | some VolumeNameBuf =>
        if invariant_wcscmp VolumeNameBuf VolumeName = 0 then
          (Drive, LogicalDrives &&& (4294967295 ^^^ (1 <<< (Drive - 65))))
        else
          FspToolGetDriveLetter_loop QueryDosDeviceW LogicalDrives VolumeName n
      | none => FspToolGetDriveLetter_loop QueryDosDeviceW LogicalDrives VolumeName n
    else
      FspToolGetDriveLetter_loop QueryDosDeviceW LogicalDrives VolumeName n

/-- The function `FspToolGetDriveLetter`: the returned letter (0 for none)
and the value left in `*PLogicalDrives`. -/
def FspToolGetDriveLetter (QueryDosDeviceW : WCHAR → Option (List WCHAR))
    (LogicalDrives : DWORD) (VolumeName : List WCHAR) : WCHAR × DWORD :=
  if LogicalDrives = 0 then (0, LogicalDrives)
  else FspToolGetDriveLetter_loop QueryDosDeviceW LogicalDrives VolumeName 26

/-! ## FspToolGetTokenInfo and FspToolGetNameFromSid -/

/-- The function `FspToolGetTokenInfo`: the returned status and the value
stored in `*PInfo` (`none` when nothing is stored; the embedded identifier
stands for the structure). -/
def FspToolGetTokenInfo (os : OS) (Token : HANDLE)
    (TokenInformationClass : TOKEN_INFORMATION_CLASS) : NTSTATUS × Option PSID :=
  let probe := os.GetTokenInformation Token TokenInformationClass none
  if probe.ok then
    (STATUS_INVALID_PARAMETER, none)
  else if ERROR_INSUFFICIENT_BUFFER ≠ probe.LastError then
    (os.FspNtStatusFromWin32 probe.LastError, none)
  else
    let Size := probe.ReturnLength
    if os.MemAlloc Size = false then
      (STATUS_INSUFFICIENT_RESOURCES, none)
    else
      let retry := os.GetTokenInformation Token TokenInformationClass (some Size)
      if retry.ok = false then
        (os.FspNtStatusFromWin32 retry.LastError, none)
      else
        (STATUS_SUCCESS, some retry.Sid)

/-- The function `FspToolGetNameFromSid`: the returned status and the string
stored in `*PName` (empty when the allocation fails and `*PName` is null). -/
def FspToolGetNameFromSid (os : OS) (Sid : PSID) : NTSTATUS × List WCHAR :=
  let bufs : List WCHAR × List WCHAR :=
    match os.LookupAccountSidW Sid with
    | some (Name, Domn) => (Name, Domn)
    | none => ([], [])
  let Name := bufs.1
  let Domn := bufs.2
  let NameSize := lstrlenW Name
  let DomnSize := lstrlenW Domn
  if os.MemAlloc ((DomnSize + 1 + NameSize + 1) * 2) = false then
    (STATUS_INSUFFICIENT_RESOURCES, [])
  else if 0 < DomnSize then
    (STATUS_SUCCESS, Domn.take DomnSize ++ [92] ++ Name.take NameSize)
  else
    (STATUS_SUCCESS, Name.take NameSize)

/-! ## lsvol -/

/-- Modelled from the spec: the device-name root of the disk device class,
`FSP_FSCTL_DISK_DEVICE_NAME` of `winfsp/fsctl.h`, which is not among the
sources. -/
def FSP_FSCTL_DISK_DEVICE_NAME : String := "WinFsp.Disk"

/-- Modelled from the spec: the device-name root of the network device class,
`FSP_FSCTL_NET_DEVICE_NAME` of `winfsp/fsctl.h`, which is not among the
sources. -/
def FSP_FSCTL_NET_DEVICE_NAME : String := "WinFsp.Net"

/-- The loop `for (PWCHAR P = VolumeListBuf, VolumeName = P; VolumeListBufEnd > P; P++)`
of `lsvol_dev`.  The first list is the memory from `P` to `VolumeListBufEnd`,
the second the `WCHAR`s from `VolumeName` up to `P`, the number is
`LogicalDrives`.  The result is the lines printed. -/
def lsvol_dev_loop (QueryDosDeviceW : WCHAR → Option (List WCHAR)) :
    List WCHAR → List WCHAR → DWORD → List Line
  | [], _, _ => []
  | c :: P, VolumeName, LogicalDrives =>
    if c = 0 then
      let r := FspToolGetDriveLetter QueryDosDeviceW LogicalDrives VolumeName
      info "%-4S%S" [Arg.wstr (if r.1 ≠ 0 then [r.1, 58] else []), Arg.wstr VolumeName]
        :: lsvol_dev_loop QueryDosDeviceW P [] r.2
    else
      lsvol_dev_loop QueryDosDeviceW P (VolumeName ++ [c]) LogicalDrives

/-- The function `lsvol_dev`: the returned status and the lines printed.
The loop visits the `WCHAR`s that start before `VolumeListBufEnd`, which is
`VolumeListSize` bytes after the start of the buffer. -/
def lsvol_dev (os : OS) (fuel : Nat) (DeviceName : String) :
    Option (NTSTATUS × List Line) :=
  match FspToolGetVolumeList os fuel DeviceName with
  | none => none
  | some v =>
    if NT_SUCCESS v.Result = false then some (v.Result, [])
    else
      some (STATUS_SUCCESS,
        lsvol_dev_loop os.QueryDosDeviceW
          (v.VolumeListBuf.take ((v.VolumeListSize + 1) / 2)) [] os.GetLogicalDrives)

/-- The function `lsvol`: the exit code of the process and the lines printed. -/
def lsvol (os : OS) (fuel : Nat) (argc : Int) : Option (Int × List Line) :=
  if argc ≠ 1 then some usage
  else
    match lsvol_dev os fuel FSP_FSCTL_DISK_DEVICE_NAME with
    | none => none
    | some (Result, out1) =>
      if NT_SUCCESS Result = false then
        some (int_of_DWORD (os.FspWin32FromNtStatus Result), out1)
      else
        match lsvol_dev os fuel FSP_FSCTL_NET_DEVICE_NAME with
        | none => none
        | some (Result, out2) =>
          if NT_SUCCESS Result = false then
            some (int_of_DWORD (os.FspWin32FromNtStatus Result), out1 ++ out2)
          else
            some (0, out1 ++ out2)

/-! ## id -/

/-- The function `id_sid`: the returned status and the lines printed. -/
def id_sid (os : OS) (format : String) (Sid : PSID) : NTSTATUS × List Line :=
  match os.ConvertSidToStringSidW Sid with
  | .error e => (os.FspNtStatusFromWin32 e, [])
  | .ok Str =>
    let n := FspToolGetNameFromSid os Sid
    if NT_SUCCESS n.1 = false then (n.1, [])
    else
      let m := os.FspPosixMapSidToUid Sid
      if NT_SUCCESS m.1 = false then (m.1, [])
      else (STATUS_SUCCESS, [info format [Arg.wstr Str, Arg.wstr n.2, Arg.uint m.2]])

/-- The function `id`: the exit code of the process and the lines printed.
The result is `none` when the code dereferences a null `Uinfo`, `Oinfo` or
`Ginfo` (a query that returned a success status without storing `*PInfo`). -/
def id (os : OS) (argc : Int) : Option (Int × List Line) :=
  if argc ≠ 1 then some usage
  else
    match os.OpenProcessToken with
    | .error e => some (int_of_DWORD e, [])
    | .ok Token =>
      let u := FspToolGetTokenInfo os Token TOKEN_INFORMATION_CLASS.TokenUser
      if NT_SUCCESS u.1 = false then
        some (int_of_DWORD (os.FspWin32FromNtStatus u.1), [])
      else
        let o := FspToolGetTokenInfo os Token TOKEN_INFORMATION_CLASS.TokenOwner
        if NT_SUCCESS o.1 = false then
          some (int_of_DWORD (os.FspWin32FromNtStatus o.1), [])
        else
          let g := FspToolGetTokenInfo os Token TOKEN_INFORMATION_CLASS.TokenPrimaryGroup
          if NT_SUCCESS g.1 = false then
            some (int_of_DWORD (os.FspWin32FromNtStatus g.1), [])
          else
            match u.2, o.2, g.2 with
            | some Uinfo, some Oinfo, some Ginfo =>
              some (0,
                (id_sid os "User=%S(%S) (uid=%u)" Uinfo).2 ++
                (id_sid os "Owner=%S(%S) (uid=%u)" Oinfo).2 ++
                (id_sid os "Group=%S(%S) (gid=%u)" Ginfo).2)
            | _, _, _ => none

/-! ## Reading a printed line -/

/-- The drive letter of a line of `lsvol_dev` (0 when the drive column is
blank): the first `WCHAR` of the first argument. -/
def Line.letter (l : Line) : WCHAR :=
  match l.args with
  | Arg.wstr (d :: _) :: _ => d
  | _ => 0

/-- The device path of a line of `lsvol_dev`: the second argument. -/
def Line.path (l : Line) : List WCHAR :=
  match l.args with
  | [_, Arg.wstr s] => s
  | _ => []

/-- The `WCHAR`s of a Lean string. -/
def L (s : String) : List WCHAR := s.toList.map Char.toNat

/-- The letter `'A' + k` is in use in the bitmap and `QueryDosDeviceW`
succeeds for it with a device path equal to the target. -/
def resolvesTo (QueryDosDeviceW : WCHAR → Option (List WCHAR))
    (LogicalDrives : DWORD) (VolumeName : List WCHAR) (k : Nat) : Bool :=
  LogicalDrives.testBit k &&
    match QueryDosDeviceW (65 + k) with
    | some VolumeNameBuf => decide (cstr VolumeNameBuf = cstr VolumeName)
    | none => false

/-- The lines `lsvol_dev` prints for a list of device paths, one path after
the other, each looked up in the bitmap left by the one before: the
reference against which the walk of the packed buffer is compared. -/
def lsvol_dev_lines (QueryDosDeviceW : WCHAR → Option (List WCHAR)) :
    List (List WCHAR) → DWORD → List Line
  | [], _ => []
  | VolumeName :: rest, LogicalDrives =>
    let r := FspToolGetDriveLetter QueryDosDeviceW LogicalDrives VolumeName
    info "%-4S%S" [Arg.wstr (if r.1 ≠ 0 then [r.1, 58] else []), Arg.wstr VolumeName]
      :: lsvol_dev_lines QueryDosDeviceW rest r.2

/-- The packed buffer that holds the given strings back to back, each
followed by its NUL. -/
def packed (strs : List (List WCHAR)) : List WCHAR :=
  (strs.map (fun s => s ++ [0])).flatten

/-! ## Example environments -/

/-- An environment in which every service succeeds in the simplest way: the
volume lists are empty, no drive letter is in use, every token query needs
44 bytes and yields the identifier 18, no account name is known. -/
def quietOS : OS where
  MemAlloc := fun _ => true
  FspFsctlGetVolumeList := fun _ _ => ⟨STATUS_SUCCESS, 0, []⟩
  GetLogicalDrives := 0
  QueryDosDeviceW := fun _ => none
  OpenProcessToken := Except.ok 1
  GetTokenInformation := fun _ _ len =>
    match len with
    | none => ⟨false, ERROR_INSUFFICIENT_BUFFER, 44, 0⟩
    | some _ => ⟨true, 0, 44, 18⟩
  LookupAccountSidW := fun _ => none
  ConvertSidToStringSidW := fun _ => Except.ok (L "S-1-5-18")
  FspPosixMapSidToUid := fun Sid => (STATUS_SUCCESS, Sid)
  FspNtStatusFromWin32 := fun e => if e = 0 then 0 else -1073741790
  FspWin32FromNtStatus := fun s => if s = 0 then 0 else 5
  SIZE_T_BITS := 64

/-- A driver that needs 4096 bytes and leaves the caller's size alone when
the buffer is too small. -/
def needs4096 : OS :=
  { quietOS with
    FspFsctlGetVolumeList := fun _ cap =>
      if cap < 4096 then ⟨STATUS_BUFFER_TOO_SMALL, cap, []⟩ else ⟨STATUS_SUCCESS, 0, []⟩ }

/-- A driver that needs 4096 bytes and reports that size through
`*PVolumeListSize` when the buffer is too small. -/
def reports4096 : OS :=
  { quietOS with
    FspFsctlGetVolumeList := fun _ cap =>
      if cap < 4096 then ⟨STATUS_BUFFER_TOO_SMALL, 4096, []⟩ else ⟨STATUS_SUCCESS, 0, []⟩ }

/-- Two disk volumes `\Device\A` and `\Device\B`; the letters `C` and `D`
are in use and `C` resolves to `\Device\B`. -/
def twoVolumes : OS :=
  { quietOS with
    FspFsctlGetVolumeList := fun dev _ =>
      if dev = FSP_FSCTL_DISK_DEVICE_NAME then
        ⟨STATUS_SUCCESS, 40, packed [L "\\Device\\A", L "\\Device\\B"]⟩
      else ⟨STATUS_SUCCESS, 0, []⟩
    GetLogicalDrives := 12
    QueryDosDeviceW := fun d =>
      if d = 67 then some (L "\\Device\\B" ++ [0, 0])
      else if d = 68 then some (L "\\Device\\HarddiskVolume2" ++ [0, 0])
      else none }

/-- The disk class and the network class both list the device `\Device\B`;
the letter `C` is in use and resolves to `\Device\B`. -/
def sameDeviceInBothClasses : OS :=
  { quietOS with
    FspFsctlGetVolumeList := fun _ _ => ⟨STATUS_SUCCESS, 20, packed [L "\\Device\\B"]⟩
    GetLogicalDrives := 4
    QueryDosDeviceW := fun d => if d = 67 then some (L "\\Device\\B" ++ [0, 0]) else none }

/-- The disk class lists the device `\Device\B` twice; the letter `C` is in
use and resolves to `\Device\B`. -/
def duplicateVolume : OS :=
  { quietOS with
    FspFsctlGetVolumeList := fun _ _ =>
      ⟨STATUS_SUCCESS, 40, packed [L "\\Device\\B", L "\\Device\\B"]⟩
    GetLogicalDrives := 4
    QueryDosDeviceW := fun d => if d = 67 then some (L "\\Device\\B" ++ [0, 0]) else none }

/-- The account lookup knows the identifier 18 as `SYSTEM` in the domain
`NT AUTHORITY`. -/
def knownAccount : OS :=
  { quietOS with
    LookupAccountSidW := fun Sid =>
      if Sid = 18 then some (L "SYSTEM" ++ [0], L "NT AUTHORITY" ++ [0]) else none }

/-- Every token query reports a required size of 65537 bytes, one byte above
64 KiB, and succeeds when called again with a buffer of that size. -/
def largeTokenInformation : OS :=
  { quietOS with
    GetTokenInformation := fun _ _ len =>
      match len with
      | none => ⟨false, ERROR_INSUFFICIENT_BUFFER, 65537, 0⟩
      | some n => if n = 65537 then ⟨true, 0, 65537, 18⟩ else ⟨false, ERROR_INSUFFICIENT_BUFFER, 65537, 0⟩ }

/-- The numeric mapping fails for every identifier with `STATUS_NONE_MAPPED`
(`0xC0000073`). -/
def mappingFails : OS :=
  { quietOS with FspPosixMapSidToUid := fun _ => (-1073741709, 0) }

/-- The identifier stringification fails for every identifier with
`ERROR_INVALID_SID` (1337). -/
def stringificationFails : OS :=
  { quietOS with ConvertSidToStringSidW := fun _ => Except.error 1337 }

/-- The token query for the primary group fails with `ERROR_ACCESS_DENIED`
(5); the queries for the user and the owner succeed. -/
def groupQueryDenied : OS :=
  { quietOS with
    GetTokenInformation := fun _ cls len =>
      match cls, len with
      | TOKEN_INFORMATION_CLASS.TokenPrimaryGroup, _ => ⟨false, 5, 0, 0⟩
      | _, none => ⟨false, ERROR_INSUFFICIENT_BUFFER, 44, 0⟩
      | _, some _ => ⟨true, 0, 44, 18⟩ }

/-- The token query fails with the OS error `e`: the probe fails with `e`,
which is not `ERROR_INSUFFICIENT_BUFFER`, or the probe reports the required
size, the buffer is allocated and the second call fails with `e`. -/
def tokenQueryFailsWith (os : OS) (Token : HANDLE)
    (TokenInformationClass : TOKEN_INFORMATION_CLASS) (e : DWORD) : Bool :=
  let probe := os.GetTokenInformation Token TokenInformationClass none
  let retry := os.GetTokenInformation Token TokenInformationClass (some probe.ReturnLength)
  !probe.ok &&
    ((decide (probe.LastError = e) && decide (e ≠ ERROR_INSUFFICIENT_BUFFER)) ||
     (decide (probe.LastError = ERROR_INSUFFICIENT_BUFFER) && os.MemAlloc probe.ReturnLength &&
       !retry.ok && decide (retry.LastError = e)))


/-! ## Wide strings and bits -/

theorem invariant_wcscmp_eq_zero_iff (s t : List Nat) :
    invariant_wcscmp s t = 0 ↔ cstr s = cstr t := by
  induction s generalizing t with
  | nil =>
    cases t with
    | nil => simp [invariant_wcscmp]
    | cons b t =>
      by_cases hb : b = 0
      · simp [invariant_wcscmp, cstr, hb]
      · simp [invariant_wcscmp, cstr, hb]
  | cons a s ih =>
    cases t with
    | nil =>
      by_cases ha : a = 0
      · simp [invariant_wcscmp, cstr, ha]
      · simp [invariant_wcscmp, cstr, ha]
    | cons b t =>
      by_cases hab : a = b
      · subst hab
        by_cases ha : a = 0
        · simp [invariant_wcscmp, cstr, ha]
        · have := ih t
          simp [invariant_wcscmp, cstr, ha] at this ⊢
          exact this
      · have hne : ¬ ((a : Int) - (b : Int) = 0) := by omega
        by_cases ha : a = 0
        · have hb : ¬ b = 0 := by omega
          simp [invariant_wcscmp, cstr, ha, hb, hab] at hne ⊢
          have h0 : ¬ (0 = b) := by omega
          rw [if_neg h0]
          omega
        · by_cases hb : b = 0
          · simp [invariant_wcscmp, cstr, ha, hb, hab]
          · simp [invariant_wcscmp, cstr, ha, hb, hab]
            exact hne

theorem and_one_shiftLeft_ne_zero (n k : Nat) :
    n &&& (1 <<< k) ≠ 0 ↔ n.testBit k = true := by
  rw [Nat.one_shiftLeft]
  constructor
  · intro h
    obtain ⟨i, hi⟩ := Nat.ne_zero_implies_bit_true h
    rw [Nat.testBit_and, Nat.testBit_two_pow] at hi
    simp at hi
    obtain ⟨h1, h2⟩ := hi
    subst h2
    exact h1
  · intro h h0
    have h1 : (n &&& 2 ^ k).testBit k = true := by
      simp [Nat.testBit_and, Nat.testBit_two_pow_self, h]
    rw [h0] at h1
    simp at h1

theorem testBit_clear (n k j : Nat) (hk : k < 32) :
    (n &&& (4294967295 ^^^ (1 <<< k))).testBit j =
      (n.testBit j && decide (j < 32) && decide (j ≠ k)) := by
  have h32 : (4294967295 : Nat) = 2 ^ 32 - 1 := by norm_num
  rw [Nat.one_shiftLeft, h32, Nat.testBit_and, Nat.testBit_xor,
    Nat.testBit_two_pow_sub_one, Nat.testBit_two_pow]
  by_cases h1 : j < 32 <;> by_cases h2 : k = j <;> simp [h1, h2] <;> omega

/-! ## FspToolGetDriveLetter -/

theorem resolvesTo_iff (Q : WCHAR → Option (List WCHAR)) (d : DWORD)
    (v : List WCHAR) (k : Nat) :
    resolvesTo Q d v k = true ↔
      d.testBit k = true ∧ ∃ buf, Q (65 + k) = some buf ∧ invariant_wcscmp buf v = 0 := by
  unfold resolvesTo
  cases hq : Q (65 + k) with
  | none => simp
  | some buf => simp [invariant_wcscmp_eq_zero_iff]

theorem FspToolGetDriveLetter_loop_spec (Q : WCHAR → Option (List WCHAR)) (d : DWORD)
    (v : List WCHAR) (n : Nat) :
    (FspToolGetDriveLetter_loop Q d v n = (0, d) ∧
        ∀ k, k < n → resolvesTo Q d v k = false) ∨
    (∃ k : Nat, k < n ∧ resolvesTo Q d v k = true ∧
        (∀ j, k < j → j < n → resolvesTo Q d v j = false) ∧
        FspToolGetDriveLetter_loop Q d v n =
          (65 + k, d &&& (4294967295 ^^^ (1 <<< k)))) := by
  induction n with
  | zero => left; exact ⟨rfl, fun k hk => absurd hk (Nat.not_lt_zero k)⟩
  | succ n ih =>
    have hstep : ∀ {x : WCHAR × DWORD}, resolvesTo Q d v n = false →
        FspToolGetDriveLetter_loop Q d v n = x →
        ((x = (0, d) ∧ ∀ k, k < n + 1 → resolvesTo Q d v k = false) ∨
          ∃ k, k < n + 1 ∧ resolvesTo Q d v k = true ∧
            (∀ j, k < j → j < n + 1 → resolvesTo Q d v j = false) ∧
            x = (65 + k, d &&& (4294967295 ^^^ (1 <<< k)))) := by
      intro x hn hx
      rcases ih with ⟨h0, hall⟩ | ⟨k, hk, hr, hhi, heq⟩
      · left
        refine ⟨hx ▸ h0, fun k hk => ?_⟩
        rcases Nat.lt_succ_iff_lt_or_eq.mp hk with h | h
        · exact hall k h
        · exact h ▸ hn
      · right
        refine ⟨k, Nat.lt_succ_of_lt hk, hr, fun j hj1 hj2 => ?_, hx ▸ heq⟩
        rcases Nat.lt_succ_iff_lt_or_eq.mp hj2 with h | h
        · exact hhi j hj1 h
        · exact h ▸ hn
    have hnot : ∀ b : Bool, ¬ b = true → b = false := by
      intro b hb; cases b <;> simp_all
    simp only [FspToolGetDriveLetter_loop, Nat.add_sub_cancel_left]
    by_cases hbit : d &&& (1 <<< n) ≠ 0
    · rw [if_pos hbit]
      cases hq : Q (65 + n) with
      | none =>
        simp only []
        apply hstep _ rfl
        apply hnot
        rw [resolvesTo_iff]
        rintro ⟨_, buf, hb, _⟩
        rw [hq] at hb
        cases hb
      | some buf =>
        simp only []
        by_cases hc : invariant_wcscmp buf v = 0
        · rw [if_pos hc]
          right
          refine ⟨n, Nat.lt_succ_self n, ?_, fun j hj1 hj2 => ?_, rfl⟩
          · rw [resolvesTo_iff]
            exact ⟨(and_one_shiftLeft_ne_zero d n).mp hbit, buf, hq, hc⟩
          · omega
        · rw [if_neg hc]
          apply hstep _ rfl
          apply hnot
          rw [resolvesTo_iff]
          rintro ⟨_, buf2, hb, hc2⟩
          rw [hq] at hb
          cases hb
          exact hc hc2
    · rw [if_neg hbit]
      apply hstep _ rfl
      apply hnot
      rw [resolvesTo_iff]
      rintro ⟨hb, _⟩
      exact hbit ((and_one_shiftLeft_ne_zero d n).mpr hb)

/-- C2. For every drive bitmap and every target device path,
`FspToolGetDriveLetter` returns the highest letter of `'A'`..`'Z'` whose bit
is set in the bitmap and whose device path, as resolved by a successful
`QueryDosDeviceW`, equals the target; it returns 0 when the bitmap is 0 and
when no letter in use resolves to the target. -/
theorem FspToolGetDriveLetter_highest (Q : WCHAR → Option (List WCHAR))
    (LogicalDrives : DWORD) (VolumeName : List WCHAR) :
    (∀ k : Nat, k < 26 → resolvesTo Q LogicalDrives VolumeName k = true →
        (∀ j : Nat, k < j → j < 26 → resolvesTo Q LogicalDrives VolumeName j = false) →
        (FspToolGetDriveLetter Q LogicalDrives VolumeName).1 = 65 + k) ∧
    (LogicalDrives = 0 → (FspToolGetDriveLetter Q LogicalDrives VolumeName).1 = 0) ∧
    ((∀ k : Nat, k < 26 → resolvesTo Q LogicalDrives VolumeName k = false) →
        (FspToolGetDriveLetter Q LogicalDrives VolumeName).1 = 0) := by
  refine ⟨fun k hk hr hhi => ?_, fun h0 => ?_, fun hnone => ?_⟩
  · have hd : LogicalDrives ≠ 0 := by
      rintro rfl
      rw [resolvesTo_iff] at hr
      simp at hr
    unfold FspToolGetDriveLetter
    rw [if_neg hd]
    rcases FspToolGetDriveLetter_loop_spec Q LogicalDrives VolumeName 26 with
      ⟨_, hall⟩ | ⟨k2, hk2, hr2, hhi2, heq⟩
    · rw [hall k hk] at hr
      cases hr
    · rw [heq]
      rcases Nat.lt_trichotomy k k2 with h | h | h
      · rw [hhi k2 h hk2] at hr2
        cases hr2
      · rw [h]
      · rw [hhi2 k h hk] at hr
        cases hr
  · unfold FspToolGetDriveLetter
    rw [if_pos h0]
  · unfold FspToolGetDriveLetter
    by_cases hd : LogicalDrives = 0
    · rw [if_pos hd]
    · rw [if_neg hd]
      rcases FspToolGetDriveLetter_loop_spec Q LogicalDrives VolumeName 26 with
        ⟨h0, _⟩ | ⟨k2, hk2, hr2, _, _⟩
      · rw [h0]
      · rw [hnone k2 hk2] at hr2
        cases hr2

/-- Witness for C2: with `C` and `D` in use, `C` resolving to `\Device\B` and
`D` to another device, the letter found for `\Device\B` is `C`. -/
theorem FspToolGetDriveLetter_highest_witness :
    (FspToolGetDriveLetter twoVolumes.QueryDosDeviceW 12 (L "\\Device\\B")).1 = 65 + 2 :=
  (FspToolGetDriveLetter_highest twoVolumes.QueryDosDeviceW 12 (L "\\Device\\B")).1 2
    (by decide) (by decide) (by intro j h1 h2; interval_cases j <;> decide)

theorem FspToolGetDriveLetter_result (Q : WCHAR → Option (List WCHAR)) (d : DWORD)
    (v : List WCHAR) :
    FspToolGetDriveLetter Q d v = (0, d) ∨
    ∃ k : Nat, k < 26 ∧ d.testBit k = true ∧
      FspToolGetDriveLetter Q d v = (65 + k, d &&& (4294967295 ^^^ (1 <<< k))) := by
  unfold FspToolGetDriveLetter
  by_cases hd : d = 0
  · left
    rw [if_pos hd]
  · rw [if_neg hd]
    rcases FspToolGetDriveLetter_loop_spec Q d v 26 with ⟨h0, _⟩ | ⟨k, hk, hr, _, heq⟩
    · left
      exact h0
    · right
      exact ⟨k, hk, ((resolvesTo_iff Q d v k).mp hr).1, heq⟩

/-! ## lsvol_dev -/

theorem lsvol_dev_loop_letters (Q : WCHAR → Option (List WCHAR)) (P : List WCHAR) :
    ∀ (VolumeName : List WCHAR) (d : DWORD) (l : Line),
      l ∈ lsvol_dev_loop Q P VolumeName d → l.letter ≠ 0 →
      ∃ k : Nat, k < 26 ∧ l.letter = 65 + k ∧ d.testBit k = true := by
  induction P with
  | nil =>
    intro VolumeName d l hl
    simp [lsvol_dev_loop] at hl
  | cons c P ih =>
    intro VolumeName d l hl hne
    by_cases hc : c = 0
    · simp only [lsvol_dev_loop, if_pos hc, List.mem_cons] at hl
      rcases FspToolGetDriveLetter_result Q d VolumeName with h0 | ⟨k, hk, hbit, heq⟩
      · rw [h0] at hl
        rcases hl with hl | hl
        · subst hl
          simp [Line.letter, info] at hne
        · exact ih [] d l hl hne
      · rw [heq] at hl
        rcases hl with hl | hl
        · subst hl
          refine ⟨k, hk, ?_, hbit⟩
          simp [Line.letter, info]
        · obtain ⟨k2, hk2, hl2, hb2⟩ := ih [] _ l hl hne
          refine ⟨k2, hk2, hl2, ?_⟩
          rw [testBit_clear d k k2 (by omega)] at hb2
          simp only [Bool.and_eq_true] at hb2
          exact hb2.1.1
    · simp only [lsvol_dev_loop, if_neg hc] at hl
      exact ih _ d l hl hne

theorem lsvol_dev_loop_pairwise (Q : WCHAR → Option (List WCHAR)) (P : List WCHAR) :
    ∀ (VolumeName : List WCHAR) (d : DWORD),
      (lsvol_dev_loop Q P VolumeName d).Pairwise
        (fun a b => a.letter ≠ 0 → b.letter ≠ a.letter) := by
  induction P with
  | nil =>
    intro VolumeName d
    simp [lsvol_dev_loop]
  | cons c P ih =>
    intro VolumeName d
    by_cases hc : c = 0
    · simp only [lsvol_dev_loop, if_pos hc, List.pairwise_cons]
      refine ⟨fun b hb hne heq => ?_, ih [] _⟩
      rcases FspToolGetDriveLetter_result Q d VolumeName with h0 | ⟨k, hk, hbit, hres⟩
      · rw [h0] at hne
        simp [Line.letter, info] at hne
      · rw [hres] at hb heq
        have hb0 : b.letter ≠ 0 := by
          rw [heq]
          simp [Line.letter, info]
        obtain ⟨k2, hk2, hl2, hb2⟩ := lsvol_dev_loop_letters Q P [] _ b hb hb0
        have h3 : 65 + k2 = 65 + k := by
          rw [← hl2, heq]
          simp [Line.letter, info]
        have hk : k2 = k := by omega
        subst hk
        rw [testBit_clear d k2 k2 (by omega)] at hb2
        simp at hb2
    · simp only [lsvol_dev_loop, if_neg hc]
      exact ih _ d

theorem lsvol_dev_pairwise (os : OS) (fuel : Nat) (DeviceName : String)
    (Result : NTSTATUS) (out : List Line)
    (h : lsvol_dev os fuel DeviceName = some (Result, out)) :
    out.Pairwise (fun a b => a.letter ≠ 0 → b.letter ≠ a.letter) := by
  unfold lsvol_dev at h
  cases hv : FspToolGetVolumeList os fuel DeviceName with
  | none => rw [hv] at h; cases h
  | some v =>
    rw [hv] at h
    simp only [] at h
    by_cases hs : NT_SUCCESS v.Result = false
    · rw [if_pos hs] at h
      cases h
      exact List.Pairwise.nil
    · rw [if_neg hs] at h
      cases h
      exact lsvol_dev_loop_pairwise _ _ _ _

/-- C3. Within one pass of `lsvol_dev` no drive letter is printed on two
lines: every line after a line that carries a letter carries a different
letter or a blank drive column.  The reason is in `FspToolGetDriveLetter`:
a letter it returns had its bit set in the bitmap it was given, and that bit
is clear in the bitmap it leaves behind, which never gains a bit. -/
theorem lsvol_dev_letter_once (os : OS) (fuel : Nat) (DeviceName : String)
    (Result : NTSTATUS) (out : List Line)
    (h : lsvol_dev os fuel DeviceName = some (Result, out)) :
    out.Pairwise (fun a b => a.letter ≠ 0 → b.letter ≠ a.letter) ∧
    ∀ (LogicalDrives : DWORD) (VolumeName : List WCHAR),
      (FspToolGetDriveLetter os.QueryDosDeviceW LogicalDrives VolumeName).1 ≠ 0 →
      LogicalDrives.testBit
        ((FspToolGetDriveLetter os.QueryDosDeviceW LogicalDrives VolumeName).1 - 65) = true ∧
      (FspToolGetDriveLetter os.QueryDosDeviceW LogicalDrives VolumeName).2.testBit
        ((FspToolGetDriveLetter os.QueryDosDeviceW LogicalDrives VolumeName).1 - 65) = false ∧
      ∀ j, (FspToolGetDriveLetter os.QueryDosDeviceW LogicalDrives VolumeName).2.testBit j = true →
        LogicalDrives.testBit j = true := by
  constructor
  · exact lsvol_dev_pairwise os fuel DeviceName Result out h
  · intro d v hne
    rcases FspToolGetDriveLetter_result os.QueryDosDeviceW d v with h0 | ⟨k, hk, hbit, heq⟩
    · rw [h0] at hne
      exact absurd rfl hne
    · rw [heq]
      simp only [Nat.add_sub_cancel_left]
      refine ⟨hbit, ?_, fun j hj => ?_⟩
      · rw [testBit_clear d k k (by omega)]
        simp
      · rw [testBit_clear d k j (by omega)] at hj
        simp only [Bool.and_eq_true] at hj
        exact hj.1.1

/-- Witness for C3: the driver lists `\Device\B` twice and `C` resolves to
it; the first line carries `C:`, the second a blank drive column. -/
theorem lsvol_dev_letter_once_witness :
    lsvol_dev duplicateVolume 1 FSP_FSCTL_DISK_DEVICE_NAME =
      some (STATUS_SUCCESS,
        [info "%-4S%S" [Arg.wstr (L "C:"), Arg.wstr (L "\\Device\\B")],
         info "%-4S%S" [Arg.wstr [], Arg.wstr (L "\\Device\\B")]]) ∧
    [info "%-4S%S" [Arg.wstr (L "C:"), Arg.wstr (L "\\Device\\B")],
      info "%-4S%S" [Arg.wstr [], Arg.wstr (L "\\Device\\B")]].Pairwise
        (fun a b => a.letter ≠ 0 → b.letter ≠ a.letter) :=
  ⟨by decide,
    (lsvol_dev_letter_once duplicateVolume 1 FSP_FSCTL_DISK_DEVICE_NAME STATUS_SUCCESS
      [info "%-4S%S" [Arg.wstr (L "C:"), Arg.wstr (L "\\Device\\B")],
       info "%-4S%S" [Arg.wstr [], Arg.wstr (L "\\Device\\B")]] (by decide)).1⟩

/-! ## FspToolGetVolumeList -/

theorem capacity_mod_cases (i w : Nat) :
    (1024 * 2 ^ i) % 2 ^ w = 1024 * 2 ^ i ∨ (1024 * 2 ^ i) % 2 ^ w = 0 := by
  have h : 1024 * 2 ^ i = 2 ^ (10 + i) := by rw [pow_add]; norm_num
  rw [h]
  by_cases hw : 10 + i < w
  · left
    exact Nat.mod_eq_of_lt (Nat.pow_lt_pow_right (by norm_num) hw)
  · right
    exact Nat.mod_eq_zero_of_dvd (pow_dvd_pow 2 (by omega))

theorem capacities_succ (cs : List Nat) (i m : Nat) :
    (cs ++ [1024 * 2 ^ i]) ++ (List.range (m + 1)).map (fun j => 1024 * 2 ^ (i + 1 + j)) =
      cs ++ (List.range (m + 2)).map (fun j => 1024 * 2 ^ (i + j)) := by
  rw [List.range_succ_eq_map (m + 1), List.map_cons, List.map_map, List.append_assoc]
  congr 1
  simp only [List.singleton_append, Nat.add_zero, List.cons.injEq, true_and]
  apply List.map_congr_left
  intro j _
  simp only [Function.comp, Nat.succ_eq_add_one]
  congr 2
  omega

theorem FspToolGetVolumeList_loop_zero (os : OS) (DeviceName : String) (N : Nat)
    (hN : 1 ≤ N)
    (hsmall : ∀ cap, cap < N →
      (os.FspFsctlGetVolumeList DeviceName cap).Result = STATUS_BUFFER_TOO_SMALL ∧
      (os.FspFsctlGetVolumeList DeviceName cap).VolumeListSize = cap) :
    ∀ (fuel : Nat) (cs : List SIZE_T) (v : VolumeList),
      FspToolGetVolumeList_loop os DeviceName fuel 0 cs = some v →
      NT_SUCCESS v.Result = false := by
  intro fuel
  induction fuel with
  | zero =>
    intro cs v h
    simp [FspToolGetVolumeList_loop] at h
  | succ f ih =>
    intro cs v h
    obtain ⟨h1, h2⟩ := hsmall 0 (by omega)
    have hns : NT_SUCCESS STATUS_BUFFER_TOO_SMALL = false := by decide
    rw [FspToolGetVolumeList_loop] at h
    by_cases ha : os.MemAlloc 0 = false
    · rw [if_pos ha] at h
      cases h
      exact (by decide : NT_SUCCESS STATUS_INSUFFICIENT_RESOURCES = false)
    · rw [if_neg ha] at h
      simp only [h1, h2, hns, Bool.false_eq_true, if_false, ne_eq, not_true_eq_false,
        Nat.zero_mul, Nat.zero_mod] at h
      exact ih _ v h

theorem FspToolGetVolumeList_loop_success (os : OS) (DeviceName : String) (N : Nat)
    (hN : 1 ≤ N)
    (hsmall : ∀ cap, cap < N →
      (os.FspFsctlGetVolumeList DeviceName cap).Result = STATUS_BUFFER_TOO_SMALL ∧
      (os.FspFsctlGetVolumeList DeviceName cap).VolumeListSize = cap)
    (hbig : ∀ cap, N ≤ cap →
      NT_SUCCESS (os.FspFsctlGetVolumeList DeviceName cap).Result = true) :
    ∀ (fuel i : Nat) (cs : List SIZE_T) (v : VolumeList),
      (∀ j, j < i → 1024 * 2 ^ j < N) →
      FspToolGetVolumeList_loop os DeviceName fuel (1024 * 2 ^ i) cs = some v →
      NT_SUCCESS v.Result = true →
      ∃ m : Nat, N ≤ 1024 * 2 ^ (i + m) ∧ (∀ j, j < i + m → 1024 * 2 ^ j < N) ∧
        v.Calls = cs ++ (List.range (m + 1)).map (fun j => 1024 * 2 ^ (i + j)) := by
  intro fuel
  induction fuel with
  | zero =>
    intro i cs v _ h
    simp [FspToolGetVolumeList_loop] at h
  | succ f ih =>
    intro i cs v hlow h hs
    have hns : NT_SUCCESS STATUS_BUFFER_TOO_SMALL = false := by decide
    rw [FspToolGetVolumeList_loop] at h
    by_cases ha : os.MemAlloc (1024 * 2 ^ i) = false
    · rw [if_pos ha] at h
      cases h
      have hf : NT_SUCCESS STATUS_INSUFFICIENT_RESOURCES = false := by decide
      rw [hf] at hs
      cases hs
    · rw [if_neg ha] at h
      simp only [] at h
      by_cases hr : NT_SUCCESS (os.FspFsctlGetVolumeList DeviceName (1024 * 2 ^ i)).Result = true
      · rw [if_pos hr] at h
        cases h
        have hge : N ≤ 1024 * 2 ^ i := by
          by_contra hlt
          rw [(hsmall _ (Nat.lt_of_not_le hlt)).1, hns] at hr
          cases hr
        exact ⟨0, hge, hlow, by simp [List.range_succ]⟩
      · rw [if_neg hr] at h
        by_cases hts : STATUS_BUFFER_TOO_SMALL ≠
            (os.FspFsctlGetVolumeList DeviceName (1024 * 2 ^ i)).Result
        · rw [if_pos hts] at h
          cases h
          exact absurd hs hr
        · rw [if_neg hts] at h
          have hlt : 1024 * 2 ^ i < N := by
            by_contra hge
            exact hr (hbig _ (Nat.le_of_not_lt hge))
          have hdbl : 1024 * 2 ^ i * 2 = 1024 * 2 ^ (i + 1) := by ring
          rw [(hsmall _ hlt).2, hdbl] at h
          rcases capacity_mod_cases (i + 1) os.SIZE_T_BITS with hc | hc
          · rw [hc] at h
            obtain ⟨m, h1, h2, h3⟩ := ih (i + 1) _ v
              (fun j hj => by
                rcases Nat.lt_succ_iff_lt_or_eq.mp hj with hj | hj
                · exact hlow j hj
                · rw [hj]; exact hlt) h hs
            refine ⟨m + 1, ?_, ?_, ?_⟩
            · rw [← Nat.add_assoc, Nat.add_right_comm]
              exact h1
            · intro j hj
              exact h2 j (by omega)
            · rw [h3]
              exact capacities_succ cs i m
          · rw [hc] at h
            rw [FspToolGetVolumeList_loop_zero os DeviceName N hN hsmall f _ v h] at hs
            cases hs

theorem FspToolGetVolumeList_loop_run (os : OS) (DeviceName : String) (N k : Nat)
    (halloc : ∀ cap, os.MemAlloc cap = true)
    (hsmall : ∀ cap, cap < N →
      (os.FspFsctlGetVolumeList DeviceName cap).Result = STATUS_BUFFER_TOO_SMALL ∧
      (os.FspFsctlGetVolumeList DeviceName cap).VolumeListSize = cap)
    (hbig : ∀ cap, N ≤ cap →
      NT_SUCCESS (os.FspFsctlGetVolumeList DeviceName cap).Result = true)
    (hw : 2 * N ≤ 2 ^ os.SIZE_T_BITS)
    (hk : N ≤ 1024 * 2 ^ k) (hmin : ∀ j, j < k → 1024 * 2 ^ j < N) :
    ∀ (m i : Nat), i + m = k → ∀ (fuel : Nat) (cs : List SIZE_T), m < fuel →
      FspToolGetVolumeList_loop os DeviceName fuel (1024 * 2 ^ i) cs =
        some ⟨(os.FspFsctlGetVolumeList DeviceName (1024 * 2 ^ k)).Result,
          (os.FspFsctlGetVolumeList DeviceName (1024 * 2 ^ k)).VolumeListBuf,
          (os.FspFsctlGetVolumeList DeviceName (1024 * 2 ^ k)).VolumeListSize,
          cs ++ (List.range (m + 1)).map (fun j => 1024 * 2 ^ (i + j))⟩ := by
  intro m
  induction m with
  | zero =>
    intro i hi fuel cs hf
    have hik : i = k := by omega
    subst hik
    obtain ⟨f, rfl⟩ : ∃ f, fuel = f + 1 := ⟨fuel - 1, by omega⟩
    simp [FspToolGetVolumeList_loop, halloc, hbig _ hk, List.range_succ]
  | succ m ih =>
    intro i hi fuel cs hf
    obtain ⟨f, rfl⟩ : ∃ f, fuel = f + 1 := ⟨fuel - 1, by omega⟩
    have hlt : 1024 * 2 ^ i < N := hmin i (by omega)
    obtain ⟨h1, h2⟩ := hsmall _ hlt
    have hns : NT_SUCCESS STATUS_BUFFER_TOO_SMALL = false := by decide
    have hfit : 1024 * 2 ^ i * 2 % 2 ^ os.SIZE_T_BITS = 1024 * 2 ^ (i + 1) := by
      have hdbl : 1024 * 2 ^ i * 2 = 1024 * 2 ^ (i + 1) := by ring
      rw [hdbl]
      apply Nat.mod_eq_of_lt
      omega
    simp only [FspToolGetVolumeList_loop, halloc, h1, h2, hns, hfit]
    simp only [Bool.true_eq_false, if_false, ne_eq, not_true_eq_false, Bool.false_eq_true]
    rw [ih (i + 1) (by omega) f _ (by omega)]
    congr 2
    exact capacities_succ cs i m

/-- C1 (amended). Take a driver with a true required size `N >= 1` (it
reports "buffer too small" for every capacity below `N` and succeeds for
every capacity from `N` on) that leaves the caller's `VolumeListSize` as it
was when it reports "buffer too small".  Let `1024 * 2 ^ k` be the smallest
value of that form that is at least `N`.  Whenever `FspToolGetVolumeList`
returns success, it has called the driver with exactly 1024, 2048, ...,
`1024 * 2 ^ k`, in that order.  It does return success, with what the last
call returned, when every allocation succeeds and `2 * N` fits in `SIZE_T`;
`k + 1` rounds of the loop are enough. -/
theorem FspToolGetVolumeList_capacity (os : OS) (DeviceName : String) (N : Nat)
    (hN : 1 ≤ N)
    (hsmall : ∀ cap, cap < N →
      (os.FspFsctlGetVolumeList DeviceName cap).Result = STATUS_BUFFER_TOO_SMALL ∧
      (os.FspFsctlGetVolumeList DeviceName cap).VolumeListSize = cap)
    (hbig : ∀ cap, N ≤ cap →
      NT_SUCCESS (os.FspFsctlGetVolumeList DeviceName cap).Result = true) :
    ∃ k : Nat, N ≤ 1024 * 2 ^ k ∧ (∀ j, j < k → 1024 * 2 ^ j < N) ∧
      (∀ fuel v, FspToolGetVolumeList os fuel DeviceName = some v →
        NT_SUCCESS v.Result = true →
        v.Calls = (List.range (k + 1)).map (fun j => 1024 * 2 ^ j)) ∧
      ((∀ cap, os.MemAlloc cap = true) → 2 * N ≤ 2 ^ os.SIZE_T_BITS →
        ∀ fuel, k < fuel →
          ∃ v, FspToolGetVolumeList os fuel DeviceName = some v ∧
            NT_SUCCESS v.Result = true ∧
            v.Result = (os.FspFsctlGetVolumeList DeviceName (1024 * 2 ^ k)).Result ∧
            v.VolumeListBuf =
              (os.FspFsctlGetVolumeList DeviceName (1024 * 2 ^ k)).VolumeListBuf ∧
            v.VolumeListSize =
              (os.FspFsctlGetVolumeList DeviceName (1024 * 2 ^ k)).VolumeListSize) := by
  have hex : ∃ k : Nat, N ≤ 1024 * 2 ^ k := by
    refine ⟨N, ?_⟩
    have := Nat.lt_two_pow N
    omega
  have hmin : ∀ j, j < Nat.find hex → 1024 * 2 ^ j < N := by
    intro j hj
    have := Nat.find_min hex hj
    omega
  refine ⟨Nat.find hex, Nat.find_spec hex, hmin, fun fuel v hv hs => ?_,
    fun halloc hw fuel hf => ?_⟩
  · have h0 : FspToolGetVolumeList_loop os DeviceName fuel (1024 * 2 ^ 0) [] = some v := hv
    obtain ⟨m, h1, h2, h3⟩ := FspToolGetVolumeList_loop_success os DeviceName N hN hsmall
      hbig fuel 0 [] v (fun j hj => absurd hj (Nat.not_lt_zero j)) h0 hs
    simp only [Nat.zero_add, List.nil_append] at h1 h2 h3
    have hkm : m = Nat.find hex := by
      rcases Nat.lt_trichotomy m (Nat.find hex) with h | h | h
      · have := hmin m h
        omega
      · exact h
      · have := h2 _ h
        have := Nat.find_spec hex
        omega
    rw [← hkm]
    exact h3
  · have hrun := FspToolGetVolumeList_loop_run os DeviceName N (Nat.find hex) halloc hsmall
      hbig hw (Nat.find_spec hex) hmin (Nat.find hex) 0 (by omega) fuel [] hf
    simp only [Nat.pow_zero, Nat.mul_one, List.nil_append, Nat.zero_add] at hrun
    refine ⟨_, hrun, ?_, rfl, rfl, rfl⟩
    exact hbig _ (Nat.find_spec hex)

/-- Witness for C1 (amended): a driver that needs 4096 bytes and leaves the
size alone is called with exactly 1024, 2048, 4096, and three rounds of the
loop are enough. -/
theorem FspToolGetVolumeList_capacity_witness :
    (∃ k : Nat, 4096 ≤ 1024 * 2 ^ k ∧ (∀ j, j < k → 1024 * 2 ^ j < 4096) ∧
      (∀ fuel v, FspToolGetVolumeList needs4096 fuel FSP_FSCTL_DISK_DEVICE_NAME = some v →
        NT_SUCCESS v.Result = true →
        v.Calls = (List.range (k + 1)).map (fun j => 1024 * 2 ^ j)) ∧
      ((∀ cap, needs4096.MemAlloc cap = true) → 2 * 4096 ≤ 2 ^ needs4096.SIZE_T_BITS →
        ∀ fuel, k < fuel →
          ∃ v, FspToolGetVolumeList needs4096 fuel FSP_FSCTL_DISK_DEVICE_NAME = some v ∧
            NT_SUCCESS v.Result = true ∧
            v.Result = (needs4096.FspFsctlGetVolumeList FSP_FSCTL_DISK_DEVICE_NAME
              (1024 * 2 ^ k)).Result ∧
            v.VolumeListBuf = (needs4096.FspFsctlGetVolumeList FSP_FSCTL_DISK_DEVICE_NAME
              (1024 * 2 ^ k)).VolumeListBuf ∧
            v.VolumeListSize = (needs4096.FspFsctlGetVolumeList FSP_FSCTL_DISK_DEVICE_NAME
              (1024 * 2 ^ k)).VolumeListSize)) ∧
    (∀ cap, needs4096.MemAlloc cap = true) ∧
    2 * 4096 ≤ 2 ^ needs4096.SIZE_T_BITS ∧
    FspToolGetVolumeList needs4096 3 FSP_FSCTL_DISK_DEVICE_NAME =
      some ⟨STATUS_SUCCESS, [], 0, [1024, 2048, 4096]⟩ :=
  ⟨FspToolGetVolumeList_capacity needs4096 FSP_FSCTL_DISK_DEVICE_NAME 4096
      (by decide)
      (fun cap h => by simp [needs4096, h])
      (fun cap h => by
        have h2 : ¬ cap < 4096 := by omega
        simp [needs4096, h2, NT_SUCCESS, STATUS_SUCCESS]),
    fun _ => rfl, by decide, by decide⟩

/-- Counterexample to C1 as stated. The driver `reports4096` reports "buffer
too small" for every capacity below 4096 and succeeds from 4096 on, and
every allocation succeeds; it stores the required size 4096 in the caller's
`VolumeListSize` when the buffer is too small.  `FspToolGetVolumeList` calls
it with 1024 and then with 8192: the successful capacity is not the smallest
`1024 * 2 ^ k` that is at least 4096, and 2048 and 4096 are never tried. -/
theorem FspToolGetVolumeList_reported_size_doubled :
    (∀ cap, cap < 4096 →
      (reports4096.FspFsctlGetVolumeList FSP_FSCTL_DISK_DEVICE_NAME cap).Result =
        STATUS_BUFFER_TOO_SMALL) ∧
    (∀ cap, 4096 ≤ cap →
      NT_SUCCESS (reports4096.FspFsctlGetVolumeList FSP_FSCTL_DISK_DEVICE_NAME cap).Result =
        true) ∧
    (∀ cap, reports4096.MemAlloc cap = true) ∧
    FspToolGetVolumeList reports4096 3 FSP_FSCTL_DISK_DEVICE_NAME =
      some ⟨STATUS_SUCCESS, [], 0, [1024, 8192]⟩ ∧
    (4096 ≤ 1024 * 2 ^ 2 ∧ 1024 * 2 ^ 2 < 8192) := by
  refine ⟨fun cap h => ?_, fun cap h => ?_, fun _ => rfl, by decide, by decide⟩
  · simp [reports4096, h]
  · have h2 : ¬ cap < 4096 := Nat.not_lt.mpr h
    simp [reports4096, h2, NT_SUCCESS, STATUS_SUCCESS]

/-! ## The walk of the volume list -/

theorem lsvol_dev_loop_segment (Q : WCHAR → Option (List WCHAR)) (s : List WCHAR)
    (hs : ∀ c ∈ s, c ≠ 0) :
    ∀ (rest VolumeName : List WCHAR) (d : DWORD),
      lsvol_dev_loop Q (s ++ 0 :: rest) VolumeName d =
        lsvol_dev_lines Q [VolumeName ++ s] d ++
          lsvol_dev_loop Q rest [] (FspToolGetDriveLetter Q d (VolumeName ++ s)).2 := by
  induction s with
  | nil =>
    intro rest VolumeName d
    simp [lsvol_dev_loop, lsvol_dev_lines]
  | cons c s ih =>
    intro rest VolumeName d
    have hc : c ≠ 0 := hs c (List.mem_cons_self c s)
    have ih2 := ih (fun x hx => hs x (List.mem_cons_of_mem c hx)) rest (VolumeName ++ [c]) d
    show lsvol_dev_loop Q (c :: (s ++ 0 :: rest)) VolumeName d = _
    rw [lsvol_dev_loop, if_neg hc, ih2]
    simp

theorem lsvol_dev_loop_packed (Q : WCHAR → Option (List WCHAR)) (strs : List (List WCHAR))
    (hs : ∀ s ∈ strs, ∀ c ∈ s, c ≠ 0) :
    ∀ d : DWORD, lsvol_dev_loop Q (packed strs) [] d = lsvol_dev_lines Q strs d := by
  induction strs with
  | nil =>
    intro d
    simp [packed, lsvol_dev_loop, lsvol_dev_lines]
  | cons s strs ih =>
    intro d
    have h1 : packed (s :: strs) = s ++ 0 :: packed strs := by
      simp [packed]
    rw [h1, lsvol_dev_loop_segment Q s (hs s (List.mem_cons_self s strs))]
    rw [ih (fun t ht => hs t (List.mem_cons_of_mem s ht))]
    simp [lsvol_dev_lines]

theorem lsvol_dev_lines_path (Q : WCHAR → Option (List WCHAR)) (strs : List (List WCHAR)) :
    ∀ d : DWORD, (lsvol_dev_lines Q strs d).map Line.path = strs ∧
      ∀ l ∈ lsvol_dev_lines Q strs d, l.err = false ∧ l.format = "%-4S%S" := by
  induction strs with
  | nil =>
    intro d
    simp [lsvol_dev_lines]
  | cons s strs ih =>
    intro d
    obtain ⟨h1, h2⟩ := ih (FspToolGetDriveLetter Q d s).2
    refine ⟨?_, fun l hl => ?_⟩
    · simp only [lsvol_dev_lines, List.map_cons, h1]
      simp [Line.path, info]
    · simp only [lsvol_dev_lines, List.mem_cons] at hl
      rcases hl with hl | hl
      · subst hl
        simp [info]
      · exact h2 l hl

theorem FspToolGetVolumeList_loop_from_source (os : OS) (DeviceName : String) :
    ∀ (fuel : Nat) (cap : SIZE_T) (cs : List SIZE_T) (v : VolumeList),
      FspToolGetVolumeList_loop os DeviceName fuel cap cs = some v →
      NT_SUCCESS v.Result = true →
      ∃ c, NT_SUCCESS (os.FspFsctlGetVolumeList DeviceName c).Result = true ∧
        v.VolumeListBuf = (os.FspFsctlGetVolumeList DeviceName c).VolumeListBuf ∧
        v.VolumeListSize = (os.FspFsctlGetVolumeList DeviceName c).VolumeListSize := by
  intro fuel
  induction fuel with
  | zero =>
    intro cap cs v h
    simp [FspToolGetVolumeList_loop] at h
  | succ f ih =>
    intro cap cs v h hs
    rw [FspToolGetVolumeList_loop] at h
    by_cases ha : os.MemAlloc cap = false
    · rw [if_pos ha] at h
      cases h
      have hf : NT_SUCCESS STATUS_INSUFFICIENT_RESOURCES = false := by decide
      rw [hf] at hs
      cases hs
    · rw [if_neg ha] at h
      simp only [] at h
      by_cases hr : NT_SUCCESS (os.FspFsctlGetVolumeList DeviceName cap).Result = true
      · rw [if_pos hr] at h
        cases h
        exact ⟨cap, hr, rfl, rfl⟩
      · rw [if_neg hr] at h
        by_cases hts : STATUS_BUFFER_TOO_SMALL ≠ (os.FspFsctlGetVolumeList DeviceName cap).Result
        · rw [if_pos hts] at h
          cases h
          exact absurd hs hr
        · rw [if_neg hts] at h
          exact ih _ _ v h hs

theorem FspToolGetVolumeList_total (os : OS) (DeviceName : String) (N : Nat)
    (halloc : ∀ cap, os.MemAlloc cap = true)
    (hsmall : ∀ cap, cap < N →
      (os.FspFsctlGetVolumeList DeviceName cap).Result = STATUS_BUFFER_TOO_SMALL ∧
      (os.FspFsctlGetVolumeList DeviceName cap).VolumeListSize = cap)
    (hbig : ∀ cap, N ≤ cap →
      NT_SUCCESS (os.FspFsctlGetVolumeList DeviceName cap).Result = true)
    (hw : 2 * N ≤ 2 ^ os.SIZE_T_BITS) :
    ∃ k : Nat, N ≤ 1024 * 2 ^ k ∧ ∀ fuel, k < fuel →
      FspToolGetVolumeList os fuel DeviceName =
        some ⟨(os.FspFsctlGetVolumeList DeviceName (1024 * 2 ^ k)).Result,
          (os.FspFsctlGetVolumeList DeviceName (1024 * 2 ^ k)).VolumeListBuf,
          (os.FspFsctlGetVolumeList DeviceName (1024 * 2 ^ k)).VolumeListSize,
          (List.range (k + 1)).map (fun j => 1024 * 2 ^ j)⟩ := by
  have hex : ∃ k : Nat, N ≤ 1024 * 2 ^ k := by
    refine ⟨N, ?_⟩
    have := Nat.lt_two_pow N
    omega
  have hmin : ∀ j, j < Nat.find hex → 1024 * 2 ^ j < N := by
    intro j hj
    have := Nat.find_min hex hj
    omega
  refine ⟨Nat.find hex, Nat.find_spec hex, fun fuel hf => ?_⟩
  have hrun := FspToolGetVolumeList_loop_run os DeviceName N (Nat.find hex) halloc hsmall
    hbig hw (Nat.find_spec hex) hmin (Nat.find hex) 0 (by omega) fuel [] hf
  simp only [Nat.pow_zero, Nat.mul_one, List.nil_append, Nat.zero_add] at hrun
  exact hrun

/-- C5. Take a driver with a required size `N` (it reports "buffer too
small", leaving the caller's size as it was, for every capacity below `N`)
that for every capacity from `N` on succeeds and returns a buffer holding
the `n` NUL-terminated device paths `strs` back to back.  Whenever
`lsvol_dev` returns success it has printed exactly `n` lines on standard
output, and the device path of the i-th line is the i-th string of the
buffer: the lines are those of `lsvol_dev_lines`, one per path, in the order
of the buffer.  And `lsvol_dev` does return success with these lines, once
the fuel exceeds the number `k` of doublings, when every allocation succeeds
and `2 * N` fits in `SIZE_T`. -/
theorem lsvol_dev_order (os : OS) (DeviceName : String) (N : Nat)
    (strs : List (List WCHAR))
    (hsmall : ∀ cap, cap < N →
      (os.FspFsctlGetVolumeList DeviceName cap).Result = STATUS_BUFFER_TOO_SMALL ∧
      (os.FspFsctlGetVolumeList DeviceName cap).VolumeListSize = cap)
    (hbig : ∀ cap, N ≤ cap →
      NT_SUCCESS (os.FspFsctlGetVolumeList DeviceName cap).Result = true ∧
      (os.FspFsctlGetVolumeList DeviceName cap).VolumeListBuf.take
        (((os.FspFsctlGetVolumeList DeviceName cap).VolumeListSize + 1) / 2) = packed strs)
    (hs : ∀ s ∈ strs, ∀ c ∈ s, c ≠ 0) :
    (∀ fuel Result out, lsvol_dev os fuel DeviceName = some (Result, out) →
      NT_SUCCESS Result = true →
      out = lsvol_dev_lines os.QueryDosDeviceW strs os.GetLogicalDrives ∧
      out.length = strs.length ∧
      out.map Line.path = strs ∧
      ∀ l ∈ out, l.err = false ∧ l.format = "%-4S%S") ∧
    ((∀ cap, os.MemAlloc cap = true) → 2 * N ≤ 2 ^ os.SIZE_T_BITS →
      ∃ k : Nat, N ≤ 1024 * 2 ^ k ∧ ∀ fuel, k < fuel →
        ∃ out, lsvol_dev os fuel DeviceName = some (STATUS_SUCCESS, out) ∧
          out = lsvol_dev_lines os.QueryDosDeviceW strs os.GetLogicalDrives ∧
          out.length = strs.length ∧
          out.map Line.path = strs ∧
          ∀ l ∈ out, l.err = false ∧ l.format = "%-4S%S") := by
  have hlines : (lsvol_dev_lines os.QueryDosDeviceW strs os.GetLogicalDrives).length =
      strs.length ∧
      (lsvol_dev_lines os.QueryDosDeviceW strs os.GetLogicalDrives).map Line.path = strs ∧
      ∀ l ∈ lsvol_dev_lines os.QueryDosDeviceW strs os.GetLogicalDrives,
        l.err = false ∧ l.format = "%-4S%S" := by
    have h := lsvol_dev_lines_path os.QueryDosDeviceW strs os.GetLogicalDrives
    refine ⟨?_, h.1, h.2⟩
    have h2 := congrArg List.length h.1
    simpa using h2
  have hns : NT_SUCCESS STATUS_BUFFER_TOO_SMALL = false := by decide
  refine ⟨fun fuel Result out h hR => ?_, fun halloc hw => ?_⟩
  · unfold lsvol_dev at h
    cases hv : FspToolGetVolumeList os fuel DeviceName with
    | none => rw [hv] at h; cases h
    | some v =>
      rw [hv] at h
      simp only [] at h
      by_cases hf : NT_SUCCESS v.Result = false
      · rw [if_pos hf] at h
        cases h
        rw [hf] at hR
        cases hR
      · rw [if_neg hf] at h
        cases h
        have hvs : NT_SUCCESS v.Result = true := by
          cases hb : NT_SUCCESS v.Result
          · exact absurd hb hf
          · rfl
        obtain ⟨c, hc, hbuf, hsize⟩ :=
          FspToolGetVolumeList_loop_from_source os DeviceName fuel 1024 [] v hv hvs
        have hge : N ≤ c := by
          by_contra hlt
          rw [(hsmall c (Nat.lt_of_not_le hlt)).1, hns] at hc
          cases hc
        rw [hbuf, hsize, (hbig c hge).2, lsvol_dev_loop_packed _ _ hs]
        exact ⟨rfl, hlines⟩
  · obtain ⟨k, hk, hrun⟩ := FspToolGetVolumeList_total os DeviceName N halloc hsmall
      (fun cap h => (hbig cap h).1) hw
    refine ⟨k, hk, fun fuel hf => ?_⟩
    refine ⟨lsvol_dev_lines os.QueryDosDeviceW strs os.GetLogicalDrives, ?_, rfl, hlines⟩
    unfold lsvol_dev
    rw [hrun fuel hf]
    simp only [(hbig _ hk).1, Bool.true_eq_false, if_false, (hbig _ hk).2]
    rw [lsvol_dev_loop_packed _ _ hs]

/-- Witness for C5: the driver lists `\Device\A` and `\Device\B` at the first
call, the letters `C` and `D` are in use and `C` resolves to `\Device\B`;
with any fuel `lsvol_dev` returns success, and the lines pair `\Device\A`
with a blank drive column and then `\Device\B` with `C:`. -/
theorem lsvol_dev_order_witness :
    (∃ k : Nat, 0 ≤ 1024 * 2 ^ k ∧ ∀ fuel, k < fuel →
      ∃ out, lsvol_dev twoVolumes fuel FSP_FSCTL_DISK_DEVICE_NAME = some (STATUS_SUCCESS, out) ∧
        out = lsvol_dev_lines twoVolumes.QueryDosDeviceW [L "\\Device\\A", L "\\Device\\B"]
          twoVolumes.GetLogicalDrives ∧
        out.length = [L "\\Device\\A", L "\\Device\\B"].length ∧
        out.map Line.path = [L "\\Device\\A", L "\\Device\\B"] ∧
        ∀ l ∈ out, l.err = false ∧ l.format = "%-4S%S") ∧
    lsvol_dev_lines twoVolumes.QueryDosDeviceW [L "\\Device\\A", L "\\Device\\B"]
        twoVolumes.GetLogicalDrives =
      [info "%-4S%S" [Arg.wstr [], Arg.wstr (L "\\Device\\A")],
       info "%-4S%S" [Arg.wstr (L "C:"), Arg.wstr (L "\\Device\\B")]] ∧
    lsvol_dev twoVolumes 1 FSP_FSCTL_DISK_DEVICE_NAME =
      some (STATUS_SUCCESS,
        [info "%-4S%S" [Arg.wstr [], Arg.wstr (L "\\Device\\A")],
         info "%-4S%S" [Arg.wstr (L "C:"), Arg.wstr (L "\\Device\\B")]]) :=
  ⟨(lsvol_dev_order twoVolumes FSP_FSCTL_DISK_DEVICE_NAME 0
      [L "\\Device\\A", L "\\Device\\B"]
      (fun cap h => absurd h (Nat.not_lt_zero cap))
      (fun cap _ => ⟨rfl,
        (by decide : List.take ((40 + 1) / 2) (packed [L "\\Device\\A", L "\\Device\\B"]) =
          packed [L "\\Device\\A", L "\\Device\\B"])⟩)
      (by decide)).2 (fun _ => rfl) (by decide),
    by decide, by decide⟩

/-! ## lsvol -/

/-- Counterexample to C4 as stated. Both device classes list `\Device\B` and
`C` resolves to it.  The letter `C` is matched and consumed while the disk
class is listed, and `lsvol` reports it again for the volume of the network
class: the second `lsvol_dev` starts from a fresh `GetLogicalDrives()`. -/
theorem lsvol_letter_reported_in_both_classes :
    lsvol_dev sameDeviceInBothClasses 1 FSP_FSCTL_DISK_DEVICE_NAME =
      some (STATUS_SUCCESS, [info "%-4S%S" [Arg.wstr (L "C:"), Arg.wstr (L "\\Device\\B")]]) ∧
    lsvol_dev sameDeviceInBothClasses 1 FSP_FSCTL_NET_DEVICE_NAME =
      some (STATUS_SUCCESS, [info "%-4S%S" [Arg.wstr (L "C:"), Arg.wstr (L "\\Device\\B")]]) ∧
    lsvol sameDeviceInBothClasses 1 1 =
      some (0, [info "%-4S%S" [Arg.wstr (L "C:"), Arg.wstr (L "\\Device\\B")],
                info "%-4S%S" [Arg.wstr (L "C:"), Arg.wstr (L "\\Device\\B")]]) := by
  decide

theorem lsvol_dev_fresh_bitmap (os : OS) (fuel : Nat) (DeviceName : String)
    (Result : NTSTATUS) (out : List Line)
    (h : lsvol_dev os fuel DeviceName = some (Result, out)) (hs : NT_SUCCESS Result = true) :
    ∃ v, FspToolGetVolumeList os fuel DeviceName = some v ∧
      out = lsvol_dev_loop os.QueryDosDeviceW
        (v.VolumeListBuf.take ((v.VolumeListSize + 1) / 2)) [] os.GetLogicalDrives := by
  unfold lsvol_dev at h
  cases hv : FspToolGetVolumeList os fuel DeviceName with
  | none => rw [hv] at h; cases h
  | some v =>
    rw [hv] at h
    simp only [] at h
    by_cases hf : NT_SUCCESS v.Result = false
    · rw [if_pos hf] at h
      cases h
      rw [hf] at hs
      cases hs
    · rw [if_neg hf] at h
      cases h
      exact ⟨v, rfl, rfl⟩

/-- C4 (amended). In `lsvol` every call of `lsvol_dev` takes its own
snapshot of the drive bitmap: the lines of the network class are computed
from a fresh `GetLogicalDrives()`, whatever the disk class consumed.  The
snapshot is shared and consumed only within one device class: the output of
`lsvol` is the lines of the disk class followed by those of the network
class, and within each class no letter is printed twice. -/
theorem lsvol_bitmap_per_class (os : OS) (fuel : Nat) (rd rn : NTSTATUS)
    (outd outn : List Line)
    (hd : lsvol_dev os fuel FSP_FSCTL_DISK_DEVICE_NAME = some (rd, outd))
    (hsd : NT_SUCCESS rd = true)
    (hn : lsvol_dev os fuel FSP_FSCTL_NET_DEVICE_NAME = some (rn, outn))
    (hsn : NT_SUCCESS rn = true) :
    lsvol os fuel 1 = some (0, outd ++ outn) ∧
    (∃ v, FspToolGetVolumeList os fuel FSP_FSCTL_NET_DEVICE_NAME = some v ∧
      outn = lsvol_dev_loop os.QueryDosDeviceW
        (v.VolumeListBuf.take ((v.VolumeListSize + 1) / 2)) [] os.GetLogicalDrives) ∧
    outd.Pairwise (fun a b => a.letter ≠ 0 → b.letter ≠ a.letter) ∧
    outn.Pairwise (fun a b => a.letter ≠ 0 → b.letter ≠ a.letter) := by
  refine ⟨?_, lsvol_dev_fresh_bitmap os fuel _ rn outn hn hsn,
    lsvol_dev_pairwise os fuel _ rd outd hd, lsvol_dev_pairwise os fuel _ rn outn hn⟩
  unfold lsvol
  simp [hd, hn, hsd, hsn]

/-- Witness for C4 (amended), in the environment of the counterexample. -/
theorem lsvol_bitmap_per_class_witness :
    lsvol sameDeviceInBothClasses 1 1 =
      some (0, [info "%-4S%S" [Arg.wstr (L "C:"), Arg.wstr (L "\\Device\\B")]] ++
               [info "%-4S%S" [Arg.wstr (L "C:"), Arg.wstr (L "\\Device\\B")]]) :=
  (lsvol_bitmap_per_class sameDeviceInBothClasses 1 STATUS_SUCCESS STATUS_SUCCESS
    [info "%-4S%S" [Arg.wstr (L "C:"), Arg.wstr (L "\\Device\\B")]]
    [info "%-4S%S" [Arg.wstr (L "C:"), Arg.wstr (L "\\Device\\B")]]
    (by decide) (by decide) (by decide) (by decide)).1

/-! ## FspToolGetNameFromSid -/

theorem take_lstrlenW (s : List WCHAR) : s.take (lstrlenW s) = cstr s := by
  unfold lstrlenW cstr
  induction s with
  | nil => rfl
  | cons a s ih =>
    by_cases ha : a = 0
    · simp [ha]
    · simp [ha, ih]

theorem lstrlenW_pos_iff (s : List WCHAR) : 0 < lstrlenW s ↔ cstr s ≠ [] := by
  unfold lstrlenW
  exact List.length_pos

theorem FspToolGetNameFromSid_eq (os : OS) (Sid : PSID)
    (halloc : ∀ n, os.MemAlloc n = true) (NameBuf DomnBuf : List WCHAR)
    (hl : (match os.LookupAccountSidW Sid with
      | some (Name, Domn) => (Name, Domn)
      | none => ([], [])) = (NameBuf, DomnBuf)) :
    FspToolGetNameFromSid os Sid =
      (STATUS_SUCCESS,
        if cstr DomnBuf ≠ [] then cstr DomnBuf ++ [92] ++ cstr NameBuf else cstr NameBuf) := by
  unfold FspToolGetNameFromSid
  simp only [hl, halloc, Bool.true_eq_false, if_false, take_lstrlenW, lstrlenW_pos_iff]
  by_cases hd : cstr DomnBuf = []
  · simp [hd]
  · simp [hd]

/-- C6. With the allocation of the result succeeding, `FspToolGetNameFromSid`
returns success and the string `DOMAIN\Name` (the domain, one backslash, the
name) when the looked-up domain and name are both non-empty, the bare name
when the domain is empty, and the empty string when both are empty; when
`LookupAccountSidW` fails both are taken as empty, and the result is the
empty string with status success. -/
theorem FspToolGetNameFromSid_format (os : OS) (Sid : PSID)
    (halloc : ∀ n, os.MemAlloc n = true) :
    (∀ NameBuf DomnBuf, os.LookupAccountSidW Sid = some (NameBuf, DomnBuf) →
      (cstr DomnBuf ≠ [] → cstr NameBuf ≠ [] →
        FspToolGetNameFromSid os Sid =
          (STATUS_SUCCESS, cstr DomnBuf ++ [92] ++ cstr NameBuf)) ∧
      (cstr DomnBuf = [] →
        FspToolGetNameFromSid os Sid = (STATUS_SUCCESS, cstr NameBuf)) ∧
      (cstr DomnBuf = [] → cstr NameBuf = [] →
        FspToolGetNameFromSid os Sid = (STATUS_SUCCESS, []))) ∧
    (os.LookupAccountSidW Sid = none →
      FspToolGetNameFromSid os Sid = (STATUS_SUCCESS, [])) := by
  refine ⟨fun NameBuf DomnBuf hl => ⟨fun hd _ => ?_, fun hd => ?_, fun hd hn => ?_⟩,
    fun hl => ?_⟩
  · rw [FspToolGetNameFromSid_eq os Sid halloc NameBuf DomnBuf (by rw [hl]), if_pos hd]
  · rw [FspToolGetNameFromSid_eq os Sid halloc NameBuf DomnBuf (by rw [hl]),
      if_neg (not_not.mpr hd)]
  · rw [FspToolGetNameFromSid_eq os Sid halloc NameBuf DomnBuf (by rw [hl]),
      if_neg (not_not.mpr hd), hn]
  · rw [FspToolGetNameFromSid_eq os Sid halloc [] [] (by rw [hl])]
    simp [cstr]

/-- Witness for C6: the account `SYSTEM` of the domain `NT AUTHORITY` is
returned as `NT AUTHORITY\SYSTEM`, and an unknown identifier as the empty
string. -/
theorem FspToolGetNameFromSid_format_witness :
    FspToolGetNameFromSid knownAccount 18 =
      (STATUS_SUCCESS, cstr (L "NT AUTHORITY" ++ [0]) ++ [92] ++ cstr (L "SYSTEM" ++ [0])) ∧
    cstr (L "NT AUTHORITY" ++ [0]) ++ [92] ++ cstr (L "SYSTEM" ++ [0]) =
      L "NT AUTHORITY\\SYSTEM" ∧
    FspToolGetNameFromSid knownAccount 19 = (STATUS_SUCCESS, []) :=
  ⟨((FspToolGetNameFromSid_format knownAccount 18 (fun _ => rfl)).1
      (L "SYSTEM" ++ [0]) (L "NT AUTHORITY" ++ [0]) (by decide)).1 (by decide) (by decide),
    by decide,
    (FspToolGetNameFromSid_format knownAccount 19 (fun _ => rfl)).2 (by decide)⟩

/-! ## FspToolGetTokenInfo -/

/-- Counterexample to C7 as stated. The probe reports a required size of
65537 bytes, above 64 KiB; `FspToolGetTokenInfo` allocates 65537 bytes, calls
again and returns success with the structure. -/
theorem FspToolGetTokenInfo_above_64KiB :
    (largeTokenInformation.GetTokenInformation 1 TOKEN_INFORMATION_CLASS.TokenUser
      none).ReturnLength = 65537 ∧
    65536 < (65537 : Nat) ∧
    FspToolGetTokenInfo largeTokenInformation 1 TOKEN_INFORMATION_CLASS.TokenUser =
      (STATUS_SUCCESS, some 18) ∧
    NT_SUCCESS (FspToolGetTokenInfo largeTokenInformation 1
      TOKEN_INFORMATION_CLASS.TokenUser).1 = true := by
  decide

theorem FspToolGetTokenInfo_of_fails (os : OS) (Token : HANDLE)
    (cls : TOKEN_INFORMATION_CLASS) (e : DWORD)
    (h : tokenQueryFailsWith os Token cls e = true) :
    FspToolGetTokenInfo os Token cls = (os.FspNtStatusFromWin32 e, none) := by
  unfold tokenQueryFailsWith at h
  simp only [Bool.and_eq_true, Bool.or_eq_true, Bool.not_eq_true', decide_eq_true_eq] at h
  obtain ⟨hp, h | h⟩ := h
  · obtain ⟨h1, h2⟩ := h
    unfold FspToolGetTokenInfo
    simp [hp, h1, Ne.symm h2]
  · obtain ⟨⟨⟨h1, h2⟩, h3⟩, h4⟩ := h
    unfold FspToolGetTokenInfo
    simp [hp, h1, h2, h3, h4]

/-- C7 (amended). `FspToolGetTokenInfo` fails, with the status
`FspNtStatusFromWin32(e)` and without handing a structure to the caller,
whenever the probe fails with an OS error `e` other than
`ERROR_INSUFFICIENT_BUFFER` or the second call fails with an OS error `e`
(`FspNtStatusFromWin32` mapping `e` to a failure status).  It has no limit
on the required size: whatever size the probe reports, also above 64 KiB,
it allocates that size, and once the allocation and the second call succeed
it returns success with the structure. -/
theorem FspToolGetTokenInfo_failures (os : OS) (Token : HANDLE)
    (cls : TOKEN_INFORMATION_CLASS) :
    (∀ e, tokenQueryFailsWith os Token cls e = true →
      NT_SUCCESS (os.FspNtStatusFromWin32 e) = false →
      NT_SUCCESS (FspToolGetTokenInfo os Token cls).1 = false ∧
      (FspToolGetTokenInfo os Token cls).1 = os.FspNtStatusFromWin32 e ∧
      (FspToolGetTokenInfo os Token cls).2 = none) ∧
    ((os.GetTokenInformation Token cls none).ok = false →
      (os.GetTokenInformation Token cls none).LastError = ERROR_INSUFFICIENT_BUFFER →
      os.MemAlloc (os.GetTokenInformation Token cls none).ReturnLength = true →
      (os.GetTokenInformation Token cls
        (some (os.GetTokenInformation Token cls none).ReturnLength)).ok = true →
      FspToolGetTokenInfo os Token cls =
        (STATUS_SUCCESS, some (os.GetTokenInformation Token cls
          (some (os.GetTokenInformation Token cls none).ReturnLength)).Sid)) := by
  refine ⟨fun e he hs => ?_, fun h1 h2 h3 h4 => ?_⟩
  · rw [FspToolGetTokenInfo_of_fails os Token cls e he]
    exact ⟨hs, rfl, rfl⟩
  · unfold FspToolGetTokenInfo
    simp [h1, h2, h3, h4]

/-- Witness for C7 (amended): a primary-group query that fails with
`ERROR_ACCESS_DENIED` makes `FspToolGetTokenInfo` fail, and a query that
needs 65537 bytes succeeds. -/
theorem FspToolGetTokenInfo_failures_witness :
    (NT_SUCCESS (FspToolGetTokenInfo groupQueryDenied 1
        TOKEN_INFORMATION_CLASS.TokenPrimaryGroup).1 = false ∧
      (FspToolGetTokenInfo groupQueryDenied 1 TOKEN_INFORMATION_CLASS.TokenPrimaryGroup).1 =
        groupQueryDenied.FspNtStatusFromWin32 5 ∧
      (FspToolGetTokenInfo groupQueryDenied 1 TOKEN_INFORMATION_CLASS.TokenPrimaryGroup).2 =
        none) ∧
    FspToolGetTokenInfo largeTokenInformation 1 TOKEN_INFORMATION_CLASS.TokenOwner =
      (STATUS_SUCCESS, some 18) :=
  ⟨(FspToolGetTokenInfo_failures groupQueryDenied 1
      TOKEN_INFORMATION_CLASS.TokenPrimaryGroup).1 5 (by decide) (by decide),
    (FspToolGetTokenInfo_failures largeTokenInformation 1
      TOKEN_INFORMATION_CLASS.TokenOwner).2 (by decide) (by decide) (by decide) (by decide)⟩

/-! ## id -/

theorem FspToolGetNameFromSid_status (os : OS) (Sid : PSID)
    (halloc : ∀ n, os.MemAlloc n = true) :
    (FspToolGetNameFromSid os Sid).1 = STATUS_SUCCESS := by
  rw [FspToolGetNameFromSid_eq os Sid halloc _ _ rfl]

theorem FspToolGetNameFromSid_not_found (os : OS) (Sid : PSID)
    (halloc : ∀ n, os.MemAlloc n = true) (hl : os.LookupAccountSidW Sid = none) :
    (FspToolGetNameFromSid os Sid).2 = [] := by
  rw [FspToolGetNameFromSid_eq os Sid halloc [] [] (by rw [hl])]
  simp [cstr]

theorem id_sid_ok (os : OS) (format : String) (Sid : PSID) (Str : List WCHAR)
    (hstr : os.ConvertSidToStringSidW Sid = Except.ok Str)
    (hmap : NT_SUCCESS (os.FspPosixMapSidToUid Sid).1 = true)
    (halloc : ∀ n, os.MemAlloc n = true) :
    id_sid os format Sid =
      (STATUS_SUCCESS,
        [info format [Arg.wstr Str, Arg.wstr (FspToolGetNameFromSid os Sid).2,
          Arg.uint (os.FspPosixMapSidToUid Sid).2]]) := by
  unfold id_sid
  have hn : NT_SUCCESS (FspToolGetNameFromSid os Sid).1 = true := by
    rw [FspToolGetNameFromSid_status os Sid halloc]
    decide
  simp [hstr, hmap, hn]

theorem id_after_queries (os : OS) (Token : HANDLE) (u o g : PSID)
    (hT : os.OpenProcessToken = Except.ok Token)
    (hu : FspToolGetTokenInfo os Token TOKEN_INFORMATION_CLASS.TokenUser =
      (STATUS_SUCCESS, some u))
    (ho : FspToolGetTokenInfo os Token TOKEN_INFORMATION_CLASS.TokenOwner =
      (STATUS_SUCCESS, some o))
    (hg : FspToolGetTokenInfo os Token TOKEN_INFORMATION_CLASS.TokenPrimaryGroup =
      (STATUS_SUCCESS, some g)) :
    Fsptool.id os 1 = some (0,
      (id_sid os "User=%S(%S) (uid=%u)" u).2 ++
      (id_sid os "Owner=%S(%S) (uid=%u)" o).2 ++
      (id_sid os "Group=%S(%S) (gid=%u)" g).2) := by
  have hs : NT_SUCCESS STATUS_SUCCESS = true := by decide
  unfold Fsptool.id
  simp [hT, hu, ho, hg, hs]

/-- C8 (defect in `id`). A failure of the numeric mapping or of the
identifier stringification for a role is to make `id` return the OS error
code of the first such failure; the code returns 0 instead.
In `mappingFails` the three token queries succeed and the numeric mapping
fails for every role with `STATUS_NONE_MAPPED`; in `stringificationFails`
`ConvertSidToStringSidW` fails for every role with `ERROR_INVALID_SID`.  In
both, `id_sid` returns the failure status for each role and prints no line,
`FspWin32FromNtStatus` turns that status into the OS error 5, and `id`,
which drops what `id_sid` returns, prints nothing and returns 0, not 5. -/
theorem id_exit_zero_when_mapping_fails :
    (FspToolGetTokenInfo mappingFails 1 TOKEN_INFORMATION_CLASS.TokenUser =
        (STATUS_SUCCESS, some 18) ∧
      FspToolGetTokenInfo mappingFails 1 TOKEN_INFORMATION_CLASS.TokenOwner =
        (STATUS_SUCCESS, some 18) ∧
      FspToolGetTokenInfo mappingFails 1 TOKEN_INFORMATION_CLASS.TokenPrimaryGroup =
        (STATUS_SUCCESS, some 18) ∧
      NT_SUCCESS (mappingFails.FspPosixMapSidToUid 18).1 = false ∧
      id_sid mappingFails "User=%S(%S) (uid=%u)" 18 = (-1073741709, []) ∧
      id_sid mappingFails "Owner=%S(%S) (uid=%u)" 18 = (-1073741709, []) ∧
      id_sid mappingFails "Group=%S(%S) (gid=%u)" 18 = (-1073741709, []) ∧
      int_of_DWORD (mappingFails.FspWin32FromNtStatus (-1073741709)) = 5 ∧
      Fsptool.id mappingFails 1 = some (0, [])) ∧
    (FspToolGetTokenInfo stringificationFails 1 TOKEN_INFORMATION_CLASS.TokenUser =
        (STATUS_SUCCESS, some 18) ∧
      FspToolGetTokenInfo stringificationFails 1 TOKEN_INFORMATION_CLASS.TokenOwner =
        (STATUS_SUCCESS, some 18) ∧
      FspToolGetTokenInfo stringificationFails 1 TOKEN_INFORMATION_CLASS.TokenPrimaryGroup =
        (STATUS_SUCCESS, some 18) ∧
      id_sid stringificationFails "User=%S(%S) (uid=%u)" 18 = (-1073741790, []) ∧
      id_sid stringificationFails "Owner=%S(%S) (uid=%u)" 18 = (-1073741790, []) ∧
      id_sid stringificationFails "Group=%S(%S) (gid=%u)" 18 = (-1073741790, []) ∧
      int_of_DWORD (stringificationFails.FspWin32FromNtStatus (-1073741790)) = 5 ∧
      Fsptool.id stringificationFails 1 = some (0, [])) := by
  decide

/-- C9. When the token query for the primary group fails with an OS error
`e` (the probe fails with `e` other than `ERROR_INSUFFICIENT_BUFFER`, or the
second call fails with `e`), `FspNtStatusFromWin32` mapping `e` to a failure
status, and the queries for the user and the owner have succeeded, `id`
prints none of the three identity lines and returns
`FspWin32FromNtStatus(FspNtStatusFromWin32(e))` as its `int` exit code. -/
theorem id_group_query_fails (os : OS) (Token : HANDLE) (e : DWORD)
    (hT : os.OpenProcessToken = Except.ok Token)
    (hu : NT_SUCCESS (FspToolGetTokenInfo os Token
      TOKEN_INFORMATION_CLASS.TokenUser).1 = true)
    (ho : NT_SUCCESS (FspToolGetTokenInfo os Token
      TOKEN_INFORMATION_CLASS.TokenOwner).1 = true)
    (hg : tokenQueryFailsWith os Token TOKEN_INFORMATION_CLASS.TokenPrimaryGroup e = true)
    (hs : NT_SUCCESS (os.FspNtStatusFromWin32 e) = false) :
    Fsptool.id os 1 =
      some (int_of_DWORD (os.FspWin32FromNtStatus (os.FspNtStatusFromWin32 e)), []) := by
  unfold Fsptool.id
  simp [hT, hu, ho, FspToolGetTokenInfo_of_fails os Token _ e hg, hs]

/-- Witness for C9: the primary-group query fails with `ERROR_ACCESS_DENIED`
(5); `id` prints nothing and returns 5. -/
theorem id_group_query_fails_witness :
    Fsptool.id groupQueryDenied 1 =
      some (int_of_DWORD (groupQueryDenied.FspWin32FromNtStatus
        (groupQueryDenied.FspNtStatusFromWin32 5)), []) ∧
    int_of_DWORD (groupQueryDenied.FspWin32FromNtStatus
      (groupQueryDenied.FspNtStatusFromWin32 5)) = 5 :=
  ⟨id_group_query_fails groupQueryDenied 1 5 rfl (by decide) (by decide) (by decide)
      (by decide),
    by decide⟩

/-- C10. When `OpenProcessToken`, the three token queries, the identifier
stringification and the numeric mapping succeed (and the name buffers are
allocated), `id` returns 0 and prints exactly three lines, for the user, the
owner and the group in that order, each with the textual identifier, the
name returned by `FspToolGetNameFromSid` and the numeric id.  When the
account lookup fails for all three roles the three lines are still printed,
each with an empty name and with its textual identifier and numeric id. -/
theorem id_three_lines (os : OS) (Token : HANDLE) (u o g : PSID)
    (su so sg : List WCHAR)
    (hT : os.OpenProcessToken = Except.ok Token)
    (hu : FspToolGetTokenInfo os Token TOKEN_INFORMATION_CLASS.TokenUser =
      (STATUS_SUCCESS, some u))
    (ho : FspToolGetTokenInfo os Token TOKEN_INFORMATION_CLASS.TokenOwner =
      (STATUS_SUCCESS, some o))
    (hg : FspToolGetTokenInfo os Token TOKEN_INFORMATION_CLASS.TokenPrimaryGroup =
      (STATUS_SUCCESS, some g))
    (hsu : os.ConvertSidToStringSidW u = Except.ok su)
    (hso : os.ConvertSidToStringSidW o = Except.ok so)
    (hsg : os.ConvertSidToStringSidW g = Except.ok sg)
    (hmu : NT_SUCCESS (os.FspPosixMapSidToUid u).1 = true)
    (hmo : NT_SUCCESS (os.FspPosixMapSidToUid o).1 = true)
    (hmg : NT_SUCCESS (os.FspPosixMapSidToUid g).1 = true)
    (halloc : ∀ n, os.MemAlloc n = true) :
    Fsptool.id os 1 = some (0,
      [info "User=%S(%S) (uid=%u)"
         [Arg.wstr su, Arg.wstr (FspToolGetNameFromSid os u).2,
          Arg.uint (os.FspPosixMapSidToUid u).2],
       info "Owner=%S(%S) (uid=%u)"
         [Arg.wstr so, Arg.wstr (FspToolGetNameFromSid os o).2,
          Arg.uint (os.FspPosixMapSidToUid o).2],
       info "Group=%S(%S) (gid=%u)"
         [Arg.wstr sg, Arg.wstr (FspToolGetNameFromSid os g).2,
          Arg.uint (os.FspPosixMapSidToUid g).2]]) ∧
    (os.LookupAccountSidW u = none → os.LookupAccountSidW o = none →
      os.LookupAccountSidW g = none →
      Fsptool.id os 1 = some (0,
        [info "User=%S(%S) (uid=%u)"
           [Arg.wstr su, Arg.wstr [], Arg.uint (os.FspPosixMapSidToUid u).2],
         info "Owner=%S(%S) (uid=%u)"
           [Arg.wstr so, Arg.wstr [], Arg.uint (os.FspPosixMapSidToUid o).2],
         info "Group=%S(%S) (gid=%u)"
           [Arg.wstr sg, Arg.wstr [], Arg.uint (os.FspPosixMapSidToUid g).2]])) := by
  have hid : Fsptool.id os 1 = some (0,
      [info "User=%S(%S) (uid=%u)"
         [Arg.wstr su, Arg.wstr (FspToolGetNameFromSid os u).2,
          Arg.uint (os.FspPosixMapSidToUid u).2],
       info "Owner=%S(%S) (uid=%u)"
         [Arg.wstr so, Arg.wstr (FspToolGetNameFromSid os o).2,
          Arg.uint (os.FspPosixMapSidToUid o).2],
       info "Group=%S(%S) (gid=%u)"
         [Arg.wstr sg, Arg.wstr (FspToolGetNameFromSid os g).2,
          Arg.uint (os.FspPosixMapSidToUid g).2]]) := by
    rw [id_after_queries os Token u o g hT hu ho hg,
      id_sid_ok os _ u su hsu hmu halloc, id_sid_ok os _ o so hso hmo halloc,
      id_sid_ok os _ g sg hsg hmg halloc]
    rfl
  refine ⟨hid, fun hlu hlo hlg => ?_⟩
  rw [hid, FspToolGetNameFromSid_not_found os u halloc hlu,
    FspToolGetNameFromSid_not_found os o halloc hlo,
    FspToolGetNameFromSid_not_found os g halloc hlg]

/-- Witness for C10: no account name is known in `quietOS`; the three lines
carry the identifier `S-1-5-18`, an empty name and the numeric id 18. -/
theorem id_three_lines_witness :
    Fsptool.id quietOS 1 = some (0,
      [info "User=%S(%S) (uid=%u)"
         [Arg.wstr (L "S-1-5-18"), Arg.wstr [], Arg.uint (quietOS.FspPosixMapSidToUid 18).2],
       info "Owner=%S(%S) (uid=%u)"
         [Arg.wstr (L "S-1-5-18"), Arg.wstr [], Arg.uint (quietOS.FspPosixMapSidToUid 18).2],
       info "Group=%S(%S) (gid=%u)"
         [Arg.wstr (L "S-1-5-18"), Arg.wstr [], Arg.uint (quietOS.FspPosixMapSidToUid 18).2]]) :=
  (id_three_lines quietOS 1 18 18 18 (L "S-1-5-18") (L "S-1-5-18") (L "S-1-5-18")
    rfl (by decide) (by decide) (by decide) rfl rfl rfl
    (by decide) (by decide) (by decide) (fun _ => rfl)).2 (by decide) (by decide) (by decide)

end Fsptool
